import Mathlib

/-!
Shallow embedding of the colorspace conversion engine in
src/magick/colorspace.c: the scalar Lab/XYZ kernels, the lookup-table
builders, the pixel transform driver and the orchestrating entry points
(RGBTransformImage, TransformRGBImage, SetImageColorspace,
TransformImageColorspace).

Modelling conventions:
* Machine floating point (MagickRealType, double, float) is modelled by ℚ in
  the executable pixel pipeline (a decimal literal denotes its exact decimal
  value) and by ℝ for the transcendental Lab kernels.
* The build configuration is the stock fixed-point Q16 non-HDRI build
  (QuantumDepth 16, MAGICKCORE_HDRI_SUPPORT undefined); magick-config.h leaves
  both to configure time, and the specification's MaxMap/YCCMap discussion is
  about this mode.
* The OpenMP pragmas compile away in a serial build; the row loops are
  modelled with their serial semantics, in which the shared status flag makes
  every iteration after a failure skip its row.
* Debug logging, assertions and the progress monitor (NULL by default) are
  not modelled.
* Collaborators that are declared outside the excerpted sources (the pixel
  cache, quantum scaling, the gem.c scalar kernels, libm, the property store)
  are modelled from the spec as explicit parameters; each such definition
  carries a doc comment saying so.
-/

namespace Magick

/-- Truncation toward zero: the semantics of a C cast from a floating-point
value to an integer type. -/
def ctrunc (v : ℚ) : ℤ := if v < 0 then ⌈v⌉ else ⌊v⌋

/-- Modelled from the spec: QuantumRange, the maximum channel sample, for the
Q16 build (quantum.h is not part of the excerpt). -/
def QuantumRange : ℕ := 65535

/-- Modelled from the spec: MaxMap, the lookup-table resolution (entry count
minus one), for the Q16 build (quantum.h is not part of the excerpt). -/
def MaxMap : ℕ := 65535

/-- Modelled from the spec: QuantumScale = 1/QuantumRange (quantum.h). -/
def QuantumScale : ℚ := 1 / (QuantumRange : ℚ)

/-- Modelled from the spec: ScaleQuantumToMap for the Q16 build clamps a
quantum into the table index domain 0..MaxMap (quantum.h). -/
def ScaleQuantumToMap (quantum : ℕ) : ℕ :=
  if MaxMap ≤ quantum then MaxMap else quantum

/-- Modelled from the spec: ScaleMapToQuantum for the Q16 non-HDRI build:
clamp into [0, MaxMap], then round by adding one half and casting
(quantum.h). -/
def ScaleMapToQuantum (value : ℚ) : ℕ :=
  if value ≤ 0 then 0
  else if (MaxMap : ℚ) ≤ value then QuantumRange
  else (ctrunc (value + 0.5)).toNat

/-- Modelled from the spec: ClampToQuantum clamps into [0, QuantumRange] and
rounds by adding one half and casting (quantum.h). -/
def ClampToQuantum (value : ℚ) : ℕ :=
  if value ≤ 0 then 0
  else if (QuantumRange : ℚ) ≤ value then QuantumRange
  else (ctrunc (value + 0.5)).toNat

/-- Modelled from the spec: RoundToQuantum, identical to ClampToQuantum in
this build (quantum.h). -/
def RoundToQuantum (value : ℚ) : ℕ := ClampToQuantum value

/-- Modelled from the spec: ScaleCharToQuantum for the Q16 build multiplies an
8-bit value by 257 (quantum.h). -/
def ScaleCharToQuantum (value : ℕ) : ℕ := 257 * value

/-- Modelled from the spec: MagickEpsilon, the near-zero threshold from
magick-type.h (not in the excerpt); its exact magnitude is immaterial to the
claims, any small positive value below the working range qualifies. -/
def MagickEpsilonQ : ℚ := 1 / 10000000000

/-- The members of the ColorspaceType enumeration that colorspace.c
dispatches on (colorspace.h is not part of the excerpt; members not named in
the file fall into the same default branches as the unlisted ones and are
omitted). -/
inductive ColorspaceType where
  | Undefined
  | CMY
  | CMYK
  | GRAY
  | HSB
  | HSL
  | HWB
  | Lab
  | Log
  | OHTA
  | Rec601Luma
  | Rec601YCbCr
  | Rec709Luma
  | Rec709YCbCr
  | RGB
  | sRGB
  | Transparent
  | XYZ
  | YCbCr
  | YCC
  | YIQ
  | YPbPr
  | YUV
  deriving DecidableEq, Repr

/-- The two storage classes of an image (magick/image.h). -/
inductive ClassType where
  | DirectClass
  | PseudoClass
  deriving DecidableEq, Repr

/-- The image type values colorspace.c assigns (magick/image.h). -/
inductive ImageType where
  | UndefinedType
  | GrayscaleType
  | ColorSeparationType
  | ColorSeparationMatteType
  deriving DecidableEq, Repr

/-- One pixel (or colormap entry): quantum channel samples; index is the
associated IndexPacket channel (the CMYK key); opacity is carried through
untouched by every transform in colorspace.c. -/
structure Pixel where
  red : ℕ
  green : ℕ
  blue : ℕ
  opacity : ℕ
  index : ℕ
  deriving DecidableEq, Repr

/-- Modelled from the spec: the pixel surface. Pixel rows model the
authentic pixel cache; indexes the per-pixel palette indices of a PseudoClass
image; the four optional properties model the string property store consulted
by the Log colorspace (GetImageProperty and the image lifecycle live outside
the excerpt). -/
structure Image where
  storage_class : ClassType
  colorspace : ColorspaceType
  type : ImageType
  matte : Bool
  pixels : List (List Pixel)
  colormap : List Pixel
  indexes : List (List ℕ)
  gamma_property : Option ℚ := none
  film_gamma_property : Option ℚ := none
  reference_black_property : Option ℚ := none
  reference_white_property : Option ℚ := none
  deriving DecidableEq, Repr

/-- Modelled from the spec: the outcomes of the out-of-excerpt cache and
memory collaborators consumed by colorspace.c — per-row pixel fetch
(GetCacheViewAuthenticPixels), per-row sync (SyncCacheViewAuthenticPixels),
the pixel-cache sync inside SetImageColorspace (SyncImagePixelCache),
SyncImage, SetImageStorageClass, and table/scratch allocation
(AcquireQuantumMemory). -/
structure CacheModel where
  fetchOk : ℕ → Bool
  rowSyncOk : ℕ → Bool
  cacheSyncOk : Bool
  syncImageOk : Bool
  setStorageOk : Bool
  allocOk : Bool

/-- Modelled from the spec: scalar collaborators outside the excerpt — the
HSB/HSL/HWB conversion kernels of magick/gem.c, ConvertRGBToCMYK from
color-private.h, and the libm transcendentals pow and log10 consumed by the
RGB-gamma, Lab and Log paths. No claim depends on their values, only on how
colorspace.c drives them. -/
structure GemKernels where
  powQ : ℚ → ℚ → ℚ
  log10Q : ℚ → ℚ
  rgbToHSB : ℕ → ℕ → ℕ → ℚ × ℚ × ℚ
  hsbToRGB : ℚ → ℚ → ℚ → ℕ × ℕ × ℕ
  rgbToHSL : ℕ → ℕ → ℕ → ℚ × ℚ × ℚ
  hslToRGB : ℚ → ℚ → ℚ → ℕ × ℕ × ℕ
  rgbToHWB : ℕ → ℕ → ℕ → ℚ × ℚ × ℚ
  hwbToRGB : ℚ → ℚ → ℚ → ℕ × ℕ × ℕ
  rgbToCMYK : Pixel → Pixel

/-- The D50 illuminant X component used by the Lab kernels (colorspace.c). -/
def D50Xq : ℚ := 0.9642

/-- The D50 illuminant Y component (colorspace.c). -/
def D50Yq : ℚ := 1.0

/-- The D50 illuminant Z component (colorspace.c). -/
def D50Zq : ℚ := 0.8249

/-- ConvertRGBToXYZ from colorspace.c, over ℚ, with libm pow supplied by the
kernel parameter. -/
def ConvertRGBToXYZq (kern : GemKernels) (red green blue : ℕ) : ℚ × ℚ × ℚ :=
  let r0 := QuantumScale * (red : ℚ)
  let r := if 0.0404482362771082 < r0 then kern.powQ ((r0 + 0.055) / 1.055) 2.4
           else r0 / 12.92
  let g0 := QuantumScale * (green : ℚ)
  let g := if 0.0404482362771082 < g0 then kern.powQ ((g0 + 0.055) / 1.055) 2.4
           else g0 / 12.92
  let b0 := QuantumScale * (blue : ℚ)
  let b := if 0.0404482362771082 < b0 then kern.powQ ((b0 + 0.055) / 1.055) 2.4
           else b0 / 12.92
  (0.4124240 * r + 0.3575790 * g + 0.1804640 * b,
   0.2126560 * r + 0.7151580 * g + 0.0721856 * b,
   0.0193324 * r + 0.1191930 * g + 0.9504440 * b)

/-- LabF1 from colorspace.c over ℚ (the cube root goes through the supplied
libm pow). -/
def LabF1q (kern : GemKernels) (alpha : ℚ) : ℚ :=
  if alpha ≤ (24/116) * (24/116) * (24/116) then (841/108) * alpha + 16/116
  else kern.powQ alpha (1/3)

/-- ConvertXYZToLab from colorspace.c over ℚ. -/
def ConvertXYZToLabq (kern : GemKernels) (X Y Z : ℚ) : ℚ × ℚ × ℚ :=
  if |X| < MagickEpsilonQ ∧ |Y| < MagickEpsilonQ ∧ |Z| < MagickEpsilonQ then
    (0, 0.5, 0.5)
  else
    let fx := LabF1q kern (X / D50Xq)
    let fy := LabF1q kern (Y / D50Yq)
    let fz := LabF1q kern (Z / D50Zq)
    let a0 := 500 * (fx - fy) / 255
    let b0 := 200 * (fy - fz) / 255
    ((116 * fy - 16) / 100,
     if a0 < 0 then a0 + 1 else a0,
     if b0 < 0 then b0 + 1 else b0)

/-- LabF2 from colorspace.c over ℚ (no transcendental involved). -/
def LabF2q (alpha : ℚ) : ℚ :=
  if 24/116 < alpha then alpha * alpha * alpha
  else
    let beta := (108/841) * (alpha - 16/116)
    if 0 < beta then beta else 0

/-- ConvertLabToXYZ from colorspace.c over ℚ. -/
def ConvertLabToXYZq (L a b : ℚ) : ℚ × ℚ × ℚ :=
  if L ≤ 0 then (0, 0, 0)
  else
    let y := (100 * L + 16) / 116
    let x := y + 255 * 0.002 * (if 0.5 < a then a - 1 else a)
    let z := y - 255 * 0.005 * (if 0.5 < b then b - 1 else b)
    (D50Xq * LabF2q x, D50Yq * LabF2q y, D50Zq * LabF2q z)

/-- RoundToYCC from colorspace.c: clamp to [0, 1388], otherwise add one half
and cast to ssize_t. -/
def RoundToYCC (value : ℚ) : ℤ :=
  if value ≤ 0 then 0
  else if 1388 ≤ value then 1388
  else ctrunc (value + 0.5)

/-- ConvertXYZToRGB from colorspace.c over ℚ. -/
def ConvertXYZToRGBq (kern : GemKernels) (x y z : ℚ) : ℕ × ℕ × ℕ :=
  let r0 := 3.2404542 * x - 1.5371385 * y - 0.4985314 * z
  let g0 := -0.9692660 * x + 1.8760108 * y + 0.0415560 * z
  let b0 := 0.0556434 * x - 0.2040259 * y + 1.0572252 * z
  let r := if 0.00313066844250063 < r0 then 1.055 * kern.powQ r0 (1/2.4) - 0.055
           else r0 * 12.92
  let g := if 0.00313066844250063 < g0 then 1.055 * kern.powQ g0 (1/2.4) - 0.055
           else g0 * 12.92
  let b := if 0.00313066844250063 < b0 then 1.055 * kern.powQ b0 (1/2.4) - 0.055
           else b0 * 12.92
  (RoundToQuantum ((QuantumRange : ℚ) * r),
   RoundToQuantum ((QuantumRange : ℚ) * g),
   RoundToQuantum ((QuantumRange : ℚ) * b))

/-- ConvertCMYKToRGB from colorspace.c, on the (red, green, blue, index)
channels of a MagickPixelPacket. -/
def ConvertCMYKToRGB (red green blue index : ℚ) : ℚ × ℚ × ℚ :=
  ((QuantumRange : ℚ) - (QuantumScale * red * ((QuantumRange : ℚ) - index) + index),
   (QuantumRange : ℚ) - (QuantumScale * green * ((QuantumRange : ℚ) - index) + index),
   (QuantumRange : ℚ) - (QuantumScale * blue * ((QuantumRange : ℚ) - index) + index))

/-- The 1389-entry YCC correction table embedded in TransformRGBImage for the non-HDRI build. -/
def YCCMap : List ℚ :=
  [
    0.000000, 0.000720, 0.001441, 0.002161, 0.002882, 0.003602,
    0.004323, 0.005043, 0.005764, 0.006484, 0.007205, 0.007925,
    0.008646, 0.009366, 0.010086, 0.010807, 0.011527, 0.012248,
    0.012968, 0.013689, 0.014409, 0.015130, 0.015850, 0.016571,
    0.017291, 0.018012, 0.018732, 0.019452, 0.020173, 0.020893,
    0.021614, 0.022334, 0.023055, 0.023775, 0.024496, 0.025216,
    0.025937, 0.026657, 0.027378, 0.028098, 0.028818, 0.029539,
    0.030259, 0.030980, 0.031700, 0.032421, 0.033141, 0.033862,
    0.034582, 0.035303, 0.036023, 0.036744, 0.037464, 0.038184,
    0.038905, 0.039625, 0.040346, 0.041066, 0.041787, 0.042507,
    0.043228, 0.043948, 0.044669, 0.045389, 0.046110, 0.046830,
    0.047550, 0.048271, 0.048991, 0.049712, 0.050432, 0.051153,
    0.051873, 0.052594, 0.053314, 0.054035, 0.054755, 0.055476,
    0.056196, 0.056916, 0.057637, 0.058357, 0.059078, 0.059798,
    0.060519, 0.061239, 0.061960, 0.062680, 0.063401, 0.064121,
    0.064842, 0.065562, 0.066282, 0.067003, 0.067723, 0.068444,
    0.069164, 0.069885, 0.070605, 0.071326, 0.072046, 0.072767,
    0.073487, 0.074207, 0.074928, 0.075648, 0.076369, 0.077089,
    0.077810, 0.078530, 0.079251, 0.079971, 0.080692, 0.081412,
    0.082133, 0.082853, 0.083573, 0.084294, 0.085014, 0.085735,
    0.086455, 0.087176, 0.087896, 0.088617, 0.089337, 0.090058,
    0.090778, 0.091499, 0.092219, 0.092939, 0.093660, 0.094380,
    0.095101, 0.095821, 0.096542, 0.097262, 0.097983, 0.098703,
    0.099424, 0.100144, 0.100865, 0.101585, 0.102305, 0.103026,
    0.103746, 0.104467, 0.105187, 0.105908, 0.106628, 0.107349,
    0.108069, 0.108790, 0.109510, 0.110231, 0.110951, 0.111671,
    0.112392, 0.113112, 0.113833, 0.114553, 0.115274, 0.115994,
    0.116715, 0.117435, 0.118156, 0.118876, 0.119597, 0.120317,
    0.121037, 0.121758, 0.122478, 0.123199, 0.123919, 0.124640,
    0.125360, 0.126081, 0.126801, 0.127522, 0.128242, 0.128963,
    0.129683, 0.130403, 0.131124, 0.131844, 0.132565, 0.133285,
    0.134006, 0.134726, 0.135447, 0.136167, 0.136888, 0.137608,
    0.138329, 0.139049, 0.139769, 0.140490, 0.141210, 0.141931,
    0.142651, 0.143372, 0.144092, 0.144813, 0.145533, 0.146254,
    0.146974, 0.147695, 0.148415, 0.149135, 0.149856, 0.150576,
    0.151297, 0.152017, 0.152738, 0.153458, 0.154179, 0.154899,
    0.155620, 0.156340, 0.157061, 0.157781, 0.158501, 0.159222,
    0.159942, 0.160663, 0.161383, 0.162104, 0.162824, 0.163545,
    0.164265, 0.164986, 0.165706, 0.166427, 0.167147, 0.167867,
    0.168588, 0.169308, 0.170029, 0.170749, 0.171470, 0.172190,
    0.172911, 0.173631, 0.174352, 0.175072, 0.175793, 0.176513,
    0.177233, 0.177954, 0.178674, 0.179395, 0.180115, 0.180836,
    0.181556, 0.182277, 0.182997, 0.183718, 0.184438, 0.185159,
    0.185879, 0.186599, 0.187320, 0.188040, 0.188761, 0.189481,
    0.190202, 0.190922, 0.191643, 0.192363, 0.193084, 0.193804,
    0.194524, 0.195245, 0.195965, 0.196686, 0.197406, 0.198127,
    0.198847, 0.199568, 0.200288, 0.201009, 0.201729, 0.202450,
    0.203170, 0.203890, 0.204611, 0.205331, 0.206052, 0.206772,
    0.207493, 0.208213, 0.208934, 0.209654, 0.210375, 0.211095,
    0.211816, 0.212536, 0.213256, 0.213977, 0.214697, 0.215418,
    0.216138, 0.216859, 0.217579, 0.218300, 0.219020, 0.219741,
    0.220461, 0.221182, 0.221902, 0.222622, 0.223343, 0.224063,
    0.224784, 0.225504, 0.226225, 0.226945, 0.227666, 0.228386,
    0.229107, 0.229827, 0.230548, 0.231268, 0.231988, 0.232709,
    0.233429, 0.234150, 0.234870, 0.235591, 0.236311, 0.237032,
    0.237752, 0.238473, 0.239193, 0.239914, 0.240634, 0.241354,
    0.242075, 0.242795, 0.243516, 0.244236, 0.244957, 0.245677,
    0.246398, 0.247118, 0.247839, 0.248559, 0.249280, 0.250000,
    0.250720, 0.251441, 0.252161, 0.252882, 0.253602, 0.254323,
    0.255043, 0.255764, 0.256484, 0.257205, 0.257925, 0.258646,
    0.259366, 0.260086, 0.260807, 0.261527, 0.262248, 0.262968,
    0.263689, 0.264409, 0.265130, 0.265850, 0.266571, 0.267291,
    0.268012, 0.268732, 0.269452, 0.270173, 0.270893, 0.271614,
    0.272334, 0.273055, 0.273775, 0.274496, 0.275216, 0.275937,
    0.276657, 0.277378, 0.278098, 0.278818, 0.279539, 0.280259,
    0.280980, 0.281700, 0.282421, 0.283141, 0.283862, 0.284582,
    0.285303, 0.286023, 0.286744, 0.287464, 0.288184, 0.288905,
    0.289625, 0.290346, 0.291066, 0.291787, 0.292507, 0.293228,
    0.293948, 0.294669, 0.295389, 0.296109, 0.296830, 0.297550,
    0.298271, 0.298991, 0.299712, 0.300432, 0.301153, 0.301873,
    0.302594, 0.303314, 0.304035, 0.304755, 0.305476, 0.306196,
    0.306916, 0.307637, 0.308357, 0.309078, 0.309798, 0.310519,
    0.311239, 0.311960, 0.312680, 0.313401, 0.314121, 0.314842,
    0.315562, 0.316282, 0.317003, 0.317723, 0.318444, 0.319164,
    0.319885, 0.320605, 0.321326, 0.322046, 0.322767, 0.323487,
    0.324207, 0.324928, 0.325648, 0.326369, 0.327089, 0.327810,
    0.328530, 0.329251, 0.329971, 0.330692, 0.331412, 0.332133,
    0.332853, 0.333573, 0.334294, 0.335014, 0.335735, 0.336455,
    0.337176, 0.337896, 0.338617, 0.339337, 0.340058, 0.340778,
    0.341499, 0.342219, 0.342939, 0.343660, 0.344380, 0.345101,
    0.345821, 0.346542, 0.347262, 0.347983, 0.348703, 0.349424,
    0.350144, 0.350865, 0.351585, 0.352305, 0.353026, 0.353746,
    0.354467, 0.355187, 0.355908, 0.356628, 0.357349, 0.358069,
    0.358790, 0.359510, 0.360231, 0.360951, 0.361671, 0.362392,
    0.363112, 0.363833, 0.364553, 0.365274, 0.365994, 0.366715,
    0.367435, 0.368156, 0.368876, 0.369597, 0.370317, 0.371037,
    0.371758, 0.372478, 0.373199, 0.373919, 0.374640, 0.375360,
    0.376081, 0.376801, 0.377522, 0.378242, 0.378963, 0.379683,
    0.380403, 0.381124, 0.381844, 0.382565, 0.383285, 0.384006,
    0.384726, 0.385447, 0.386167, 0.386888, 0.387608, 0.388329,
    0.389049, 0.389769, 0.390490, 0.391210, 0.391931, 0.392651,
    0.393372, 0.394092, 0.394813, 0.395533, 0.396254, 0.396974,
    0.397695, 0.398415, 0.399135, 0.399856, 0.400576, 0.401297,
    0.402017, 0.402738, 0.403458, 0.404179, 0.404899, 0.405620,
    0.406340, 0.407061, 0.407781, 0.408501, 0.409222, 0.409942,
    0.410663, 0.411383, 0.412104, 0.412824, 0.413545, 0.414265,
    0.414986, 0.415706, 0.416427, 0.417147, 0.417867, 0.418588,
    0.419308, 0.420029, 0.420749, 0.421470, 0.422190, 0.422911,
    0.423631, 0.424352, 0.425072, 0.425793, 0.426513, 0.427233,
    0.427954, 0.428674, 0.429395, 0.430115, 0.430836, 0.431556,
    0.432277, 0.432997, 0.433718, 0.434438, 0.435158, 0.435879,
    0.436599, 0.437320, 0.438040, 0.438761, 0.439481, 0.440202,
    0.440922, 0.441643, 0.442363, 0.443084, 0.443804, 0.444524,
    0.445245, 0.445965, 0.446686, 0.447406, 0.448127, 0.448847,
    0.449568, 0.450288, 0.451009, 0.451729, 0.452450, 0.453170,
    0.453891, 0.454611, 0.455331, 0.456052, 0.456772, 0.457493,
    0.458213, 0.458934, 0.459654, 0.460375, 0.461095, 0.461816,
    0.462536, 0.463256, 0.463977, 0.464697, 0.465418, 0.466138,
    0.466859, 0.467579, 0.468300, 0.469020, 0.469741, 0.470461,
    0.471182, 0.471902, 0.472622, 0.473343, 0.474063, 0.474784,
    0.475504, 0.476225, 0.476945, 0.477666, 0.478386, 0.479107,
    0.479827, 0.480548, 0.481268, 0.481988, 0.482709, 0.483429,
    0.484150, 0.484870, 0.485591, 0.486311, 0.487032, 0.487752,
    0.488473, 0.489193, 0.489914, 0.490634, 0.491354, 0.492075,
    0.492795, 0.493516, 0.494236, 0.494957, 0.495677, 0.496398,
    0.497118, 0.497839, 0.498559, 0.499280, 0.500000, 0.500720,
    0.501441, 0.502161, 0.502882, 0.503602, 0.504323, 0.505043,
    0.505764, 0.506484, 0.507205, 0.507925, 0.508646, 0.509366,
    0.510086, 0.510807, 0.511527, 0.512248, 0.512968, 0.513689,
    0.514409, 0.515130, 0.515850, 0.516571, 0.517291, 0.518012,
    0.518732, 0.519452, 0.520173, 0.520893, 0.521614, 0.522334,
    0.523055, 0.523775, 0.524496, 0.525216, 0.525937, 0.526657,
    0.527378, 0.528098, 0.528818, 0.529539, 0.530259, 0.530980,
    0.531700, 0.532421, 0.533141, 0.533862, 0.534582, 0.535303,
    0.536023, 0.536744, 0.537464, 0.538184, 0.538905, 0.539625,
    0.540346, 0.541066, 0.541787, 0.542507, 0.543228, 0.543948,
    0.544669, 0.545389, 0.546109, 0.546830, 0.547550, 0.548271,
    0.548991, 0.549712, 0.550432, 0.551153, 0.551873, 0.552594,
    0.553314, 0.554035, 0.554755, 0.555476, 0.556196, 0.556916,
    0.557637, 0.558357, 0.559078, 0.559798, 0.560519, 0.561239,
    0.561960, 0.562680, 0.563401, 0.564121, 0.564842, 0.565562,
    0.566282, 0.567003, 0.567723, 0.568444, 0.569164, 0.569885,
    0.570605, 0.571326, 0.572046, 0.572767, 0.573487, 0.574207,
    0.574928, 0.575648, 0.576369, 0.577089, 0.577810, 0.578530,
    0.579251, 0.579971, 0.580692, 0.581412, 0.582133, 0.582853,
    0.583573, 0.584294, 0.585014, 0.585735, 0.586455, 0.587176,
    0.587896, 0.588617, 0.589337, 0.590058, 0.590778, 0.591499,
    0.592219, 0.592939, 0.593660, 0.594380, 0.595101, 0.595821,
    0.596542, 0.597262, 0.597983, 0.598703, 0.599424, 0.600144,
    0.600865, 0.601585, 0.602305, 0.603026, 0.603746, 0.604467,
    0.605187, 0.605908, 0.606628, 0.607349, 0.608069, 0.608790,
    0.609510, 0.610231, 0.610951, 0.611671, 0.612392, 0.613112,
    0.613833, 0.614553, 0.615274, 0.615994, 0.616715, 0.617435,
    0.618156, 0.618876, 0.619597, 0.620317, 0.621037, 0.621758,
    0.622478, 0.623199, 0.623919, 0.624640, 0.625360, 0.626081,
    0.626801, 0.627522, 0.628242, 0.628963, 0.629683, 0.630403,
    0.631124, 0.631844, 0.632565, 0.633285, 0.634006, 0.634726,
    0.635447, 0.636167, 0.636888, 0.637608, 0.638329, 0.639049,
    0.639769, 0.640490, 0.641210, 0.641931, 0.642651, 0.643372,
    0.644092, 0.644813, 0.645533, 0.646254, 0.646974, 0.647695,
    0.648415, 0.649135, 0.649856, 0.650576, 0.651297, 0.652017,
    0.652738, 0.653458, 0.654179, 0.654899, 0.655620, 0.656340,
    0.657061, 0.657781, 0.658501, 0.659222, 0.659942, 0.660663,
    0.661383, 0.662104, 0.662824, 0.663545, 0.664265, 0.664986,
    0.665706, 0.666427, 0.667147, 0.667867, 0.668588, 0.669308,
    0.670029, 0.670749, 0.671470, 0.672190, 0.672911, 0.673631,
    0.674352, 0.675072, 0.675793, 0.676513, 0.677233, 0.677954,
    0.678674, 0.679395, 0.680115, 0.680836, 0.681556, 0.682277,
    0.682997, 0.683718, 0.684438, 0.685158, 0.685879, 0.686599,
    0.687320, 0.688040, 0.688761, 0.689481, 0.690202, 0.690922,
    0.691643, 0.692363, 0.693084, 0.693804, 0.694524, 0.695245,
    0.695965, 0.696686, 0.697406, 0.698127, 0.698847, 0.699568,
    0.700288, 0.701009, 0.701729, 0.702450, 0.703170, 0.703891,
    0.704611, 0.705331, 0.706052, 0.706772, 0.707493, 0.708213,
    0.708934, 0.709654, 0.710375, 0.711095, 0.711816, 0.712536,
    0.713256, 0.713977, 0.714697, 0.715418, 0.716138, 0.716859,
    0.717579, 0.718300, 0.719020, 0.719741, 0.720461, 0.721182,
    0.721902, 0.722622, 0.723343, 0.724063, 0.724784, 0.725504,
    0.726225, 0.726945, 0.727666, 0.728386, 0.729107, 0.729827,
    0.730548, 0.731268, 0.731988, 0.732709, 0.733429, 0.734150,
    0.734870, 0.735591, 0.736311, 0.737032, 0.737752, 0.738473,
    0.739193, 0.739914, 0.740634, 0.741354, 0.742075, 0.742795,
    0.743516, 0.744236, 0.744957, 0.745677, 0.746398, 0.747118,
    0.747839, 0.748559, 0.749280, 0.750000, 0.750720, 0.751441,
    0.752161, 0.752882, 0.753602, 0.754323, 0.755043, 0.755764,
    0.756484, 0.757205, 0.757925, 0.758646, 0.759366, 0.760086,
    0.760807, 0.761527, 0.762248, 0.762968, 0.763689, 0.764409,
    0.765130, 0.765850, 0.766571, 0.767291, 0.768012, 0.768732,
    0.769452, 0.770173, 0.770893, 0.771614, 0.772334, 0.773055,
    0.773775, 0.774496, 0.775216, 0.775937, 0.776657, 0.777378,
    0.778098, 0.778818, 0.779539, 0.780259, 0.780980, 0.781700,
    0.782421, 0.783141, 0.783862, 0.784582, 0.785303, 0.786023,
    0.786744, 0.787464, 0.788184, 0.788905, 0.789625, 0.790346,
    0.791066, 0.791787, 0.792507, 0.793228, 0.793948, 0.794669,
    0.795389, 0.796109, 0.796830, 0.797550, 0.798271, 0.798991,
    0.799712, 0.800432, 0.801153, 0.801873, 0.802594, 0.803314,
    0.804035, 0.804755, 0.805476, 0.806196, 0.806916, 0.807637,
    0.808357, 0.809078, 0.809798, 0.810519, 0.811239, 0.811960,
    0.812680, 0.813401, 0.814121, 0.814842, 0.815562, 0.816282,
    0.817003, 0.817723, 0.818444, 0.819164, 0.819885, 0.820605,
    0.821326, 0.822046, 0.822767, 0.823487, 0.824207, 0.824928,
    0.825648, 0.826369, 0.827089, 0.827810, 0.828530, 0.829251,
    0.829971, 0.830692, 0.831412, 0.832133, 0.832853, 0.833573,
    0.834294, 0.835014, 0.835735, 0.836455, 0.837176, 0.837896,
    0.838617, 0.839337, 0.840058, 0.840778, 0.841499, 0.842219,
    0.842939, 0.843660, 0.844380, 0.845101, 0.845821, 0.846542,
    0.847262, 0.847983, 0.848703, 0.849424, 0.850144, 0.850865,
    0.851585, 0.852305, 0.853026, 0.853746, 0.854467, 0.855187,
    0.855908, 0.856628, 0.857349, 0.858069, 0.858790, 0.859510,
    0.860231, 0.860951, 0.861671, 0.862392, 0.863112, 0.863833,
    0.864553, 0.865274, 0.865994, 0.866715, 0.867435, 0.868156,
    0.868876, 0.869597, 0.870317, 0.871037, 0.871758, 0.872478,
    0.873199, 0.873919, 0.874640, 0.875360, 0.876081, 0.876801,
    0.877522, 0.878242, 0.878963, 0.879683, 0.880403, 0.881124,
    0.881844, 0.882565, 0.883285, 0.884006, 0.884726, 0.885447,
    0.886167, 0.886888, 0.887608, 0.888329, 0.889049, 0.889769,
    0.890490, 0.891210, 0.891931, 0.892651, 0.893372, 0.894092,
    0.894813, 0.895533, 0.896254, 0.896974, 0.897695, 0.898415,
    0.899135, 0.899856, 0.900576, 0.901297, 0.902017, 0.902738,
    0.903458, 0.904179, 0.904899, 0.905620, 0.906340, 0.907061,
    0.907781, 0.908501, 0.909222, 0.909942, 0.910663, 0.911383,
    0.912104, 0.912824, 0.913545, 0.914265, 0.914986, 0.915706,
    0.916427, 0.917147, 0.917867, 0.918588, 0.919308, 0.920029,
    0.920749, 0.921470, 0.922190, 0.922911, 0.923631, 0.924352,
    0.925072, 0.925793, 0.926513, 0.927233, 0.927954, 0.928674,
    0.929395, 0.930115, 0.930836, 0.931556, 0.932277, 0.932997,
    0.933718, 0.934438, 0.935158, 0.935879, 0.936599, 0.937320,
    0.938040, 0.938761, 0.939481, 0.940202, 0.940922, 0.941643,
    0.942363, 0.943084, 0.943804, 0.944524, 0.945245, 0.945965,
    0.946686, 0.947406, 0.948127, 0.948847, 0.949568, 0.950288,
    0.951009, 0.951729, 0.952450, 0.953170, 0.953891, 0.954611,
    0.955331, 0.956052, 0.956772, 0.957493, 0.958213, 0.958934,
    0.959654, 0.960375, 0.961095, 0.961816, 0.962536, 0.963256,
    0.963977, 0.964697, 0.965418, 0.966138, 0.966859, 0.967579,
    0.968300, 0.969020, 0.969741, 0.970461, 0.971182, 0.971902,
    0.972622, 0.973343, 0.974063, 0.974784, 0.975504, 0.976225,
    0.976945, 0.977666, 0.978386, 0.979107, 0.979827, 0.980548,
    0.981268, 0.981988, 0.982709, 0.983429, 0.984150, 0.984870,
    0.985591, 0.986311, 0.987032, 0.987752, 0.988473, 0.989193,
    0.989914, 0.990634, 0.991354, 0.992075, 0.992795, 0.993516,
    0.994236, 0.994957, 0.995677, 0.996398, 0.997118, 0.997839,
    0.998559, 0.999280, 1.000000
  ]

/-- TransformPacket from colorspace.c: one 3-vector table entry. -/
structure TransformPacket where
  x : ℚ
  y : ℚ
  z : ℚ
  deriving DecidableEq, Repr

/-- PrimaryInfo (image.h): the post-matrix offset vector, zero by default. -/
structure PrimaryInfo where
  x : ℚ := 0
  y : ℚ := 0
  z : ℚ := 0
  deriving DecidableEq, Repr

/-- The entries x_map[i], y_map[i], z_map[i] of the three transform tables at
a common index i. -/
structure TableTriple where
  x_map : TransformPacket
  y_map : TransformPacket
  z_map : TransformPacket
  deriving DecidableEq, Repr

/-- The primary_info offsets RGBTransformImage installs per target
colorspace. -/
def fwdPrimaryInfo (colorspace : ColorspaceType) : PrimaryInfo :=
  match colorspace with
  | .OHTA | .Rec601YCbCr | .YCbCr | .Rec709YCbCr | .YIQ | .YPbPr | .YUV =>
      { y := ((MaxMap : ℚ) + 1.0) / 2.0, z := ((MaxMap : ℚ) + 1.0) / 2.0 }
  | .YCC =>
      { y := (ScaleQuantumToMap (ScaleCharToQuantum 156) : ℚ),
        z := (ScaleQuantumToMap (ScaleCharToQuantum 137) : ℚ) }
  | _ => {}

/-- The forward (sRGB to alternate) lookup tables of RGBTransformImage:
entry i of the three tables, exactly as the per-case initialization loops
write them; the index is passed as a rational since every use multiplies it
into MagickRealType arithmetic. -/
def fwdTables (kern : GemKernels) (colorspace : ColorspaceType) (i : ℚ) : TableTriple :=
  match colorspace with
  | .OHTA =>
      { x_map := ⟨0.33333 * i, 0.50000 * i, -0.25000 * i⟩,
        y_map := ⟨0.33334 * i, 0.00000 * i, 0.50000 * i⟩,
        z_map := ⟨0.33333 * i, -0.50000 * i, -0.25000 * i⟩ }
  | .Rec601Luma | .GRAY =>
      { x_map := ⟨0.29900 * i, 0.29900 * i, 0.29900 * i⟩,
        y_map := ⟨0.58700 * i, 0.58700 * i, 0.58700 * i⟩,
        z_map := ⟨0.11400 * i, 0.11400 * i, 0.11400 * i⟩ }
  | .Rec601YCbCr | .YCbCr =>
      { x_map := ⟨0.299000 * i, -0.168730 * i, 0.500000 * i⟩,
        y_map := ⟨0.587000 * i, -0.331264 * i, -0.418688 * i⟩,
        z_map := ⟨0.114000 * i, 0.500000 * i, -0.081312 * i⟩ }
  | .Rec709Luma =>
      { x_map := ⟨0.21260 * i, 0.21260 * i, 0.21260 * i⟩,
        y_map := ⟨0.71520 * i, 0.71520 * i, 0.71520 * i⟩,
        z_map := ⟨0.07220 * i, 0.07220 * i, 0.07220 * i⟩ }
  | .Rec709YCbCr =>
      { x_map := ⟨0.212600 * i, -0.114572 * i, 0.500000 * i⟩,
        y_map := ⟨0.715200 * i, -0.385428 * i, -0.454153 * i⟩,
        z_map := ⟨0.072200 * i, 0.500000 * i, -0.045847 * i⟩ }
  | .RGB =>
      let v := if i / (MaxMap : ℚ) ≤ 0.0404482362771082
        then (i / (MaxMap : ℚ)) / 12.92
        else kern.powQ ((i / (MaxMap : ℚ) + 0.055) / 1.055) 2.4
      { x_map := ⟨1.0 * (MaxMap : ℚ) * v, 0.0 * (MaxMap : ℚ) * v, 0.0 * (MaxMap : ℚ) * v⟩,
        y_map := ⟨0.0 * (MaxMap : ℚ) * v, 1.0 * (MaxMap : ℚ) * v, 0.0 * (MaxMap : ℚ) * v⟩,
        z_map := ⟨0.0 * (MaxMap : ℚ) * v, 0.0 * (MaxMap : ℚ) * v, 1.0 * (MaxMap : ℚ) * v⟩ }
  | .XYZ =>
      { x_map := ⟨0.4124564 * i, 0.2126729 * i, 0.0193339 * i⟩,
        y_map := ⟨0.3575761 * i, 0.7151522 * i, 0.1191920 * i⟩,
        z_map := ⟨0.1804375 * i, 0.0721750 * i, 0.9503041 * i⟩ }
  | .YCC =>
      if i ≤ ((ctrunc (0.018 * (MaxMap : ℚ))) : ℚ) then
        { x_map := ⟨0.003962014134275617 * i, -0.002426619775463276 * i,
                    0.006927257754597858 * i⟩,
          y_map := ⟨0.007778268551236748 * i, -0.004763965913702149 * i,
                    -0.005800713697502058 * i⟩,
          z_map := ⟨0.001510600706713781 * i, 0.007190585689165425 * i,
                    -0.0011265440570958 * i⟩ }
      else
        { x_map := ⟨0.2201118963486454 * (1.099 * i - 0.099),
                    -0.1348122097479598 * (1.099 * i - 0.099),
                    0.3848476530332144 * (1.099 * i - 0.099)⟩,
          y_map := ⟨0.4321260306242638 * (1.099 * i - 0.099),
                    -0.2646647729834528 * (1.099 * i - 0.099),
                    -0.3222618720834477 * (1.099 * i - 0.099)⟩,
          z_map := ⟨0.08392226148409894 * (1.099 * i - 0.099),
                    0.3994769827314126 * (1.099 * i - 0.099),
                    -0.06258578094976668 * (1.099 * i - 0.099)⟩ }
  | .YIQ =>
      { x_map := ⟨0.29900 * i, 0.59600 * i, 0.21100 * i⟩,
        y_map := ⟨0.58700 * i, -0.27400 * i, -0.52300 * i⟩,
        z_map := ⟨0.11400 * i, -0.32200 * i, 0.31200 * i⟩ }
  | .YPbPr =>
      { x_map := ⟨0.299000 * i, -0.168736 * i, 0.500000 * i⟩,
        y_map := ⟨0.587000 * i, -0.331264 * i, -0.418688 * i⟩,
        z_map := ⟨0.114000 * i, 0.500000 * i, -0.081312 * i⟩ }
  | .YUV =>
      { x_map := ⟨0.29900 * i, -0.14740 * i, 0.61500 * i⟩,
        y_map := ⟨0.58700 * i, -0.28950 * i, -0.51500 * i⟩,
        z_map := ⟨0.11400 * i, 0.43690 * i, -0.10000 * i⟩ }
  | _ =>
      { x_map := ⟨i, 0.0, 0.0⟩,
        y_map := ⟨0.0, i, 0.0⟩,
        z_map := ⟨0.0, 0.0, i⟩ }

/-- The inverse (alternate to sRGB) lookup tables of TransformRGBImage,
selected by the image's current colorspace tag. -/
def invTables (kern : GemKernels) (colorspace : ColorspaceType) (i : ℚ) : TableTriple :=
  match colorspace with
  | .OHTA =>
      { x_map := ⟨i, i, i⟩,
        y_map := ⟨0.500000 * (2.000000 * i - (MaxMap : ℚ)), 0.000000,
                  -0.500000 * (2.000000 * i - (MaxMap : ℚ))⟩,
        z_map := ⟨-0.333340 * (2.000000 * i - (MaxMap : ℚ)),
                  0.666665 * (2.000000 * i - (MaxMap : ℚ)),
                  -0.333340 * (2.000000 * i - (MaxMap : ℚ))⟩ }
  | .Rec601YCbCr | .YCbCr =>
      { x_map := ⟨i, i, i⟩,
        y_map := ⟨0.000000, (-0.344136 * 0.500000) * (2.000000 * i - (MaxMap : ℚ)),
                  (1.772000 * 0.500000) * (2.000000 * i - (MaxMap : ℚ))⟩,
        z_map := ⟨(1.402000 * 0.500000) * (2.000000 * i - (MaxMap : ℚ)),
                  (-0.714136 * 0.500000) * (2.000000 * i - (MaxMap : ℚ)), 0.000000⟩ }
  | .Rec709YCbCr =>
      { x_map := ⟨i, i, i⟩,
        y_map := ⟨0.000000, (-0.187324 * 0.50000) * (2.00000 * i - (MaxMap : ℚ)),
                  (1.855600 * 0.50000) * (2.00000 * i - (MaxMap : ℚ))⟩,
        z_map := ⟨(1.574800 * 0.50000) * (2.00000 * i - (MaxMap : ℚ)),
                  (-0.468124 * 0.50000) * (2.00000 * i - (MaxMap : ℚ)), 0.00000⟩ }
  | .RGB =>
      let v := if i / (MaxMap : ℚ) ≤ 0.00313066844250063
        then (i / (MaxMap : ℚ)) * 12.92
        else 1.055 * kern.powQ (i / (MaxMap : ℚ)) (1/2.4) - 0.055
      { x_map := ⟨1.0 * (MaxMap : ℚ) * v, 0.0 * (MaxMap : ℚ) * v, 0.0 * (MaxMap : ℚ) * v⟩,
        y_map := ⟨0.0 * (MaxMap : ℚ) * v, 1.0 * (MaxMap : ℚ) * v, 0.0 * (MaxMap : ℚ) * v⟩,
        z_map := ⟨0.0 * (MaxMap : ℚ) * v, 0.0 * (MaxMap : ℚ) * v, 1.0 * (MaxMap : ℚ) * v⟩ }
  | .XYZ =>
      { x_map := ⟨3.2404542 * i, -0.9692660 * i, 0.0556434 * i⟩,
        y_map := ⟨-1.5371385 * i, 1.8760108 * i, -0.2040259 * i⟩,
        z_map := ⟨-0.4985314 * i, 0.0415560 * i, 1.0572252 * i⟩ }
  | .YCC =>
      { x_map := ⟨1.3584000 * i, 1.3584000 * i, 1.3584000 * i⟩,
        y_map := ⟨0.0000000,
                  -0.4302726 * (i - (ScaleQuantumToMap (ScaleCharToQuantum 156) : ℚ)),
                  2.2179000 * (i - (ScaleQuantumToMap (ScaleCharToQuantum 156) : ℚ))⟩,
        z_map := ⟨1.8215000 * (i - (ScaleQuantumToMap (ScaleCharToQuantum 137) : ℚ)),
                  -0.9271435 * (i - (ScaleQuantumToMap (ScaleCharToQuantum 137) : ℚ)),
                  0.0000000⟩ }
  | .YIQ =>
      { x_map := ⟨i, i, i⟩,
        y_map := ⟨0.47810 * (2.00000 * i - (MaxMap : ℚ)),
                  -0.13635 * (2.00000 * i - (MaxMap : ℚ)),
                  -0.55185 * (2.00000 * i - (MaxMap : ℚ))⟩,
        z_map := ⟨0.31070 * (2.00000 * i - (MaxMap : ℚ)),
                  -0.32340 * (2.00000 * i - (MaxMap : ℚ)),
                  0.85030 * (2.00000 * i - (MaxMap : ℚ))⟩ }
  | .YPbPr =>
      { x_map := ⟨i, i, i⟩,
        y_map := ⟨0.000000, -0.172068 * (2.00000 * i - (MaxMap : ℚ)),
                  0.88600 * (2.00000 * i - (MaxMap : ℚ))⟩,
        z_map := ⟨0.701000 * (2.00000 * i - (MaxMap : ℚ)),
                  0.357068 * (2.00000 * i - (MaxMap : ℚ)), 0.00000⟩ }
  | .YUV =>
      { x_map := ⟨i, i, i⟩,
        y_map := ⟨0.00000, -0.19690 * (2.00000 * i - (MaxMap : ℚ)),
                  1.01395 * (2.00000 * i - (MaxMap : ℚ))⟩,
        z_map := ⟨0.56990 * (2.0000 * i - (MaxMap : ℚ)),
                  -0.29025 * (2.00000 * i - (MaxMap : ℚ)), 0.00000⟩ }
  | _ =>
      { x_map := ⟨i, 0.0, 0.0⟩,
        y_map := ⟨0.0, i, 0.0⟩,
        z_map := ⟨0.0, 0.0, i⟩ }

/-- The table-driven per-pixel map of RGBTransformImage: quantize the
channels, sum the three table contributions plus the primary offset, store
through ScaleMapToQuantum. The DirectClass loop body and the PseudoClass
colormap body are identical. -/
def fwdPixelOp (kern : GemKernels) (colorspace : ColorspaceType) (p : Pixel) : Pixel :=
  let red := ScaleQuantumToMap p.red
  let green := ScaleQuantumToMap p.green
  let blue := ScaleQuantumToMap p.blue
  let pinfo := fwdPrimaryInfo colorspace
  { p with
    red := ScaleMapToQuantum ((fwdTables kern colorspace (red : ℚ)).x_map.x +
      (fwdTables kern colorspace (green : ℚ)).y_map.x +
      (fwdTables kern colorspace (blue : ℚ)).z_map.x + pinfo.x)
    green := ScaleMapToQuantum ((fwdTables kern colorspace (red : ℚ)).x_map.y +
      (fwdTables kern colorspace (green : ℚ)).y_map.y +
      (fwdTables kern colorspace (blue : ℚ)).z_map.y + pinfo.y)
    blue := ScaleMapToQuantum ((fwdTables kern colorspace (red : ℚ)).x_map.z +
      (fwdTables kern colorspace (green : ℚ)).y_map.z +
      (fwdTables kern colorspace (blue : ℚ)).z_map.z + pinfo.z) }

/-- The post-table correction switch of TransformRGBImage, dispatched on the
function's colorspace parameter (not the image tag): the YCCMap pass in the
non-HDRI build, the sRGB gamma encoding for linear RGB, identity otherwise. -/
def invCorrection (kern : GemKernels) (colorspace : ColorspaceType) (v : ℚ) : ℚ :=
  match colorspace with
  | .YCC => (QuantumRange : ℚ) * (YCCMap.getD (RoundToYCC (1024 * QuantumScale * v)).toNat 0)
  | .RGB =>
      if QuantumScale * v ≤ 0.00313066844250063 then v * 12.92
      else (QuantumRange : ℚ) * (1.055 * kern.powQ (QuantumScale * v) (1/2.4) - 0.055)
  | _ => v

/-- The table-driven per-pixel map of TransformRGBImage: tables selected by
the image tag, correction selected by the colorspace parameter. The
DirectClass loop body and the PseudoClass colormap body are identical. -/
def invPixelOp (kern : GemKernels) (tag colorspace : ColorspaceType) (p : Pixel) : Pixel :=
  let red := ScaleQuantumToMap p.red
  let green := ScaleQuantumToMap p.green
  let blue := ScaleQuantumToMap p.blue
  { p with
    red := ScaleMapToQuantum (invCorrection kern colorspace
      ((invTables kern tag (red : ℚ)).x_map.x + (invTables kern tag (green : ℚ)).y_map.x +
       (invTables kern tag (blue : ℚ)).z_map.x))
    green := ScaleMapToQuantum (invCorrection kern colorspace
      ((invTables kern tag (red : ℚ)).x_map.y + (invTables kern tag (green : ℚ)).y_map.y +
       (invTables kern tag (blue : ℚ)).z_map.y))
    blue := ScaleMapToQuantum (invCorrection kern colorspace
      ((invTables kern tag (red : ℚ)).x_map.z + (invTables kern tag (green : ℚ)).y_map.z +
       (invTables kern tag (blue : ℚ)).z_map.z)) }

/-- The per-pixel body of the CMY cases (both directions are the literal
complement with ClampToQuantum). -/
def cmyPixelOp (p : Pixel) : Pixel :=
  { p with
    red := ClampToQuantum ((QuantumRange : ℚ) - (p.red : ℚ))
    green := ClampToQuantum ((QuantumRange : ℚ) - (p.green : ℚ))
    blue := ClampToQuantum ((QuantumRange : ℚ) - (p.blue : ℚ)) }

/-- The per-pixel body of the CMYK-to-RGB case: read the MagickPixelPacket,
apply ConvertCMYKToRGB, store through the clamping SetPixelPacket. -/
def cmykInvPixelOp (p : Pixel) : Pixel :=
  let r := ConvertCMYKToRGB (p.red : ℚ) (p.green : ℚ) (p.blue : ℚ) (p.index : ℚ)
  { p with
    red := ClampToQuantum r.1
    green := ClampToQuantum r.2.1
    blue := ClampToQuantum r.2.2 }

/-- The per-pixel body of the RGB-to-HSB case. -/
def hsbFwdPixelOp (kern : GemKernels) (p : Pixel) : Pixel :=
  let h := kern.rgbToHSB p.red p.green p.blue
  { p with
    red := ClampToQuantum ((QuantumRange : ℚ) * h.1)
    green := ClampToQuantum ((QuantumRange : ℚ) * h.2.1)
    blue := ClampToQuantum ((QuantumRange : ℚ) * h.2.2) }

/-- The per-pixel body of the HSB-to-RGB case. -/
def hsbInvPixelOp (kern : GemKernels) (p : Pixel) : Pixel :=
  let r := kern.hsbToRGB (QuantumScale * (p.red : ℚ)) (QuantumScale * (p.green : ℚ))
    (QuantumScale * (p.blue : ℚ))
  { p with red := r.1, green := r.2.1, blue := r.2.2 }

/-- The per-pixel body of the RGB-to-HSL case. -/
def hslFwdPixelOp (kern : GemKernels) (p : Pixel) : Pixel :=
  let h := kern.rgbToHSL p.red p.green p.blue
  { p with
    red := ClampToQuantum ((QuantumRange : ℚ) * h.1)
    green := ClampToQuantum ((QuantumRange : ℚ) * h.2.1)
    blue := ClampToQuantum ((QuantumRange : ℚ) * h.2.2) }

/-- The per-pixel body of the HSL-to-RGB case. -/
def hslInvPixelOp (kern : GemKernels) (p : Pixel) : Pixel :=
  let r := kern.hslToRGB (QuantumScale * (p.red : ℚ)) (QuantumScale * (p.green : ℚ))
    (QuantumScale * (p.blue : ℚ))
  { p with red := r.1, green := r.2.1, blue := r.2.2 }

/-- The per-pixel body of the RGB-to-HWB case. -/
def hwbFwdPixelOp (kern : GemKernels) (p : Pixel) : Pixel :=
  let h := kern.rgbToHWB p.red p.green p.blue
  { p with
    red := ClampToQuantum ((QuantumRange : ℚ) * h.1)
    green := ClampToQuantum ((QuantumRange : ℚ) * h.2.1)
    blue := ClampToQuantum ((QuantumRange : ℚ) * h.2.2) }

/-- The per-pixel body of the HWB-to-RGB case. -/
def hwbInvPixelOp (kern : GemKernels) (p : Pixel) : Pixel :=
  let r := kern.hwbToRGB (QuantumScale * (p.red : ℚ)) (QuantumScale * (p.green : ℚ))
    (QuantumScale * (p.blue : ℚ))
  { p with red := r.1, green := r.2.1, blue := r.2.2 }

/-- The per-pixel body of the RGB-to-Lab case. -/
def labFwdPixelOp (kern : GemKernels) (p : Pixel) : Pixel :=
  let xyz := ConvertRGBToXYZq kern p.red p.green p.blue
  let lab := ConvertXYZToLabq kern xyz.1 xyz.2.1 xyz.2.2
  { p with
    red := ClampToQuantum ((QuantumRange : ℚ) * lab.1)
    green := ClampToQuantum ((QuantumRange : ℚ) * lab.2.1)
    blue := ClampToQuantum ((QuantumRange : ℚ) * lab.2.2) }

/-- The per-pixel body of the Lab-to-RGB case. -/
def labInvPixelOp (kern : GemKernels) (p : Pixel) : Pixel :=
  let xyz := ConvertLabToXYZq (QuantumScale * (p.red : ℚ)) (QuantumScale * (p.green : ℚ))
    (QuantumScale * (p.blue : ℚ))
  let rgb := ConvertXYZToRGBq kern xyz.1 xyz.2.1 xyz.2.2
  { p with red := rgb.1, green := rgb.2.1, blue := rgb.2.2 }

/-- The gamma property as the Log cases read it (with the 1/gamma-nonzero
guard of the source; the string parsing of the external property store is
modelled by the rational-valued property fields). -/
def logGamma (im : Image) : ℚ :=
  match im.gamma_property with
  | none => 1 / 1.7
  | some v => if 1 / v ≠ 0 then v else 1.0

/-- The film-gamma property with its default. -/
def logFilmGamma (im : Image) : ℚ := im.film_gamma_property.getD 0.6

/-- The reference-black property with its default. -/
def logReferenceBlack (im : Image) : ℚ := im.reference_black_property.getD 95.0

/-- The reference-white property with its default. -/
def logReferenceWhite (im : Image) : ℚ := im.reference_white_property.getD 685.0

/-- The logmap table of the RGB-to-Log case, as a function of its index. -/
def logFwdMap (kern : GemKernels) (im : Image) (i : ℕ) : ℕ :=
  let gamma := logGamma im
  let density := 1 / 1.7
  let film_gamma := logFilmGamma im
  let reference_black := logReferenceBlack im
  let reference_white := logReferenceWhite im
  let black := kern.powQ 10.0
    ((reference_black - reference_white) * (gamma / density) * 0.002 / film_gamma)
  ScaleMapToQuantum ((MaxMap : ℚ) * (reference_white +
    kern.log10Q (black + ((i : ℚ) / (MaxMap : ℚ)) * (1.0 - black)) /
      ((gamma / density) * 0.002 / film_gamma)) / 1024.0)

/-- The per-pixel body of the RGB-to-Log case. -/
def logFwdPixelOp (kern : GemKernels) (im : Image) (p : Pixel) : Pixel :=
  { p with
    red := logFwdMap kern im (ScaleQuantumToMap p.red)
    green := logFwdMap kern im (ScaleQuantumToMap p.green)
    blue := logFwdMap kern im (ScaleQuantumToMap p.blue) }

/-- The logmap table of the Log-to-RGB case, as a function of its index:
zero up to the reference-black threshold, the exponential segment up to the
reference-white threshold, QuantumRange above. -/
def logInvMap (kern : GemKernels) (im : Image) (i : ℕ) : ℕ :=
  let gamma := logGamma im
  let density := 1 / 1.7
  let film_gamma := logFilmGamma im
  let reference_black := logReferenceBlack im
  let reference_white := logReferenceWhite im
  let black := kern.powQ 10.0
    ((reference_black - reference_white) * (gamma / density) * 0.002 / film_gamma)
  if (i : ℤ) ≤ ctrunc (reference_black * (MaxMap : ℚ) / 1024.0) then 0
  else if (i : ℤ) < ctrunc (reference_white * (MaxMap : ℚ) / 1024.0) then
    ClampToQuantum ((QuantumRange : ℚ) / (1.0 - black) *
      (kern.powQ 10.0 ((1024.0 * (i : ℚ) / (MaxMap : ℚ) - reference_white) *
        (gamma / density) * 0.002 / film_gamma) - black))
  else QuantumRange

/-- The per-pixel body of the Log-to-RGB case. -/
def logInvPixelOp (kern : GemKernels) (im : Image) (p : Pixel) : Pixel :=
  { p with
    red := logInvMap kern im (ScaleQuantumToMap p.red)
    green := logInvMap kern im (ScaleQuantumToMap p.green)
    blue := logInvMap kern im (ScaleQuantumToMap p.blue) }

/-- SetImageColorspace from colorspace.c: store the tag, return the status of
the pixel-cache sync. -/
def SetImageColorspace (cm : CacheModel) (im : Image) (colorspace : ColorspaceType) :
    Image × Bool :=
  ({ im with colorspace := colorspace }, cm.cacheSyncOk)

/-- Modelled from the spec: SyncImage (magick/image.c, outside the excerpt)
pushes the colormap through the index channel into the direct pixel cache. -/
def SyncImage (cm : CacheModel) (im : Image) : Image × Bool :=
  ({ im with pixels := im.indexes.map (fun row =>
      row.map (fun ix => im.colormap.getD ix ⟨0, 0, 0, 0, 0⟩)) },
   cm.syncImageOk)

/-- Modelled from the spec: SetImageStorageClass (magick/image.c, outside the
excerpt) records the new storage class. -/
def SetImageStorageClass (cm : CacheModel) (im : Image) (storage : ClassType) :
    Image × Bool :=
  ({ im with storage_class := storage }, cm.setStorageOk)

/-- Modelled from the spec: IsGrayColorspace (colorspace-private.h, outside
the excerpt) recognizes the gray colorspaces. -/
def IsGrayColorspace (colorspace : ColorspaceType) : Bool :=
  colorspace == .GRAY || colorspace == .Rec601Luma || colorspace == .Rec709Luma

/-- Modelled from the spec: IssRGBColorspace (colorspace-private.h, outside
the excerpt) recognizes the sRGB-equivalent tags sRGB and Transparent. -/
def IssRGBColorspace (colorspace : ColorspaceType) : Bool :=
  colorspace == .sRGB || colorspace == .Transparent

/-- The serial semantics of the per-row pixel loops shared by every case of
both transforms: each iteration first consults the shared status flag and
skips its row when a previous row failed; a failed row fetch sets the flag
and leaves the row unchanged; otherwise the row is rewritten and a failed row
sync sets the flag. -/
def rowLoop (cm : CacheModel) (f : List Pixel → List Pixel) :
    ℕ → Bool → List (List Pixel) → List (List Pixel) × Bool
  | _, status, [] => ([], status)
  | y, status, row :: rest =>
      if status = false then
        let r := rowLoop cm f (y + 1) false rest
        (row :: r.1, r.2)
      else if cm.fetchOk y = false then
        let r := rowLoop cm f (y + 1) false rest
        (row :: r.1, r.2)
      else
        let r := rowLoop cm f (y + 1) (cm.rowSyncOk y) rest
        (f row :: r.1, r.2)

/-- Drive a per-pixel map over the whole pixel cache through the row loop. -/
def runRows (cm : CacheModel) (op : Pixel → Pixel) (im : Image) : Image × Bool :=
  let r := rowLoop cm (fun row => row.map op) 0 true im.pixels
  ({ im with pixels := r.1 }, r.2)

/-- The PseudoClass prologue shared by every direct-math case: SyncImage,
then force DirectClass storage, failing the call if either step fails. -/
def pseudoToDirect (cm : CacheModel) (im : Image) : Image × Bool :=
  if im.storage_class = .PseudoClass then
    let r := SyncImage cm im
    if r.2 = false then (r.1, false)
    else SetImageStorageClass cm r.1 .DirectClass
  else (im, true)

/-- The shape shared by the direct-math cases of RGBTransformImage: the
PseudoClass prologue, the row loop, a trailing image-type adjustment, and the
loop status as result (the tag was already set at entry). -/
def directFwdCase (cm : CacheModel) (op : Pixel → Pixel) (post : Image → Image)
    (im : Image) : Image × Bool :=
  let r := pseudoToDirect cm im
  if r.2 = false then (r.1, false)
  else
    let s := runRows cm op r.1
    (post s.1, s.2)

/-- The shape shared by the direct-math cases of TransformRGBImage: the
PseudoClass prologue, the row loop, the final retag to sRGB (failing the call
if its cache sync fails), and the loop status as result. -/
def directInvCase (cm : CacheModel) (op : Pixel → Pixel) (im : Image) : Image × Bool :=
  let r := pseudoToDirect cm im
  if r.2 = false then (r.1, false)
  else
    let s := runRows cm op r.1
    let t := SetImageColorspace cm s.1 .sRGB
    if t.2 = false then (t.1, false) else (t.1, s.2)

/-- Set the image type the CMY/CMYK cases assign after their loop. -/
def setSeparationType (im : Image) : Image :=
  { im with type := if im.matte = false then .ColorSeparationType
                    else .ColorSeparationMatteType }

/-- The RGB-to-Log case: read properties, allocate and fill the logmap
(failing the call on allocation failure), run the row loop; no further retag
(the tag was already set at entry) and no storage-class change. -/
def logFwdCase (kern : GemKernels) (cm : CacheModel) (im : Image) : Image × Bool :=
  if cm.allocOk = false then (im, false)
  else runRows cm (logFwdPixelOp kern im) im

/-- The Log-to-RGB case: read properties, allocate and fill the logmap
(failing the call on allocation failure), force DirectClass storage, run the
row loop, retag to sRGB. -/
def logInvCase (kern : GemKernels) (cm : CacheModel) (im : Image) : Image × Bool :=
  if cm.allocOk = false then (im, false)
  else
    let r := SetImageStorageClass cm im .DirectClass
    if r.2 = false then (r.1, false)
    else
      let s := runRows cm (logInvPixelOp kern im) r.1
      let t := SetImageColorspace cm s.1 .sRGB
      if t.2 = false then (t.1, false) else (t.1, s.2)

/-- The table path of RGBTransformImage: allocate the three tables (failing
the call on allocation failure), build them, then either run the DirectClass
row loop or transform the colormap and SyncImage (whose status is discarded),
finally retag to the target and return the loop status (MagickTrue on the
PseudoClass path). -/
def fwdTablePath (kern : GemKernels) (cm : CacheModel) (im : Image)
    (colorspace : ColorspaceType) : Image × Bool :=
  if cm.allocOk = false then (im, false)
  else
    let im := if colorspace = .Rec601Luma ∨ colorspace = .GRAY then
        { im with type := .GrayscaleType } else im
    match im.storage_class with
    | .DirectClass =>
        let s := runRows cm (fwdPixelOp kern colorspace) im
        let t := SetImageColorspace cm s.1 colorspace
        if t.2 = false then (t.1, false) else (t.1, s.2)
    | .PseudoClass =>
        let im1 := { im with colormap := im.colormap.map (fwdPixelOp kern colorspace) }
        let im2 := (SyncImage cm im1).1
        let t := SetImageColorspace cm im2 colorspace
        if t.2 = false then (t.1, false) else (t.1, true)

/-- The table path of TransformRGBImage: allocate the three tables (failing
the call on allocation failure), build them from the image tag, run the
DirectClass row loop or the colormap pass, retag to sRGB — and return
MagickTrue regardless of the row-loop status (colorspace.c line 2747). -/
def invTablePath (kern : GemKernels) (cm : CacheModel) (im : Image)
    (colorspace : ColorspaceType) : Image × Bool :=
  if cm.allocOk = false then (im, false)
  else
    match im.storage_class with
    | .DirectClass =>
        let s := runRows cm (invPixelOp kern im.colorspace colorspace) im
        let t := SetImageColorspace cm s.1 .sRGB
        if t.2 = false then (t.1, false) else (t.1, true)
    | .PseudoClass =>
        let im1 := { im with colormap := im.colormap.map (invPixelOp kern im.colorspace colorspace) }
        let im2 := (SyncImage cm im1).1
        let t := SetImageColorspace cm im2 .sRGB
        if t.2 = false then (t.1, false) else (t.1, true)

/-- RGBTransformImage from colorspace.c: retag at entry (to sRGB for gray
targets, ignoring the sync status; otherwise to the target, failing the call
if the sync fails), then dispatch on the target colorspace: the direct-math
cases or the table path. -/
def RGBTransformImage (kern : GemKernels) (cm : CacheModel) (im : Image)
    (colorspace : ColorspaceType) : Image × Bool :=
  let e := if IsGrayColorspace colorspace = true then
      ((SetImageColorspace cm im .sRGB).1, true)
    else SetImageColorspace cm im colorspace
  if e.2 = false then (e.1, false)
  else
    match colorspace with
    | .CMY => directFwdCase cm cmyPixelOp setSeparationType e.1
    | .CMYK => directFwdCase cm kern.rgbToCMYK setSeparationType e.1
    | .HSB => directFwdCase cm (hsbFwdPixelOp kern) id e.1
    | .HSL => directFwdCase cm (hslFwdPixelOp kern) id e.1
    | .HWB => directFwdCase cm (hwbFwdPixelOp kern) id e.1
    | .Lab => directFwdCase cm (labFwdPixelOp kern) id e.1
    | .Log => logFwdCase kern cm e.1
    | _ => fwdTablePath kern cm e.1 colorspace

/-- TransformRGBImage from colorspace.c: dispatch on the image's current tag:
the direct-math cases or the table path. -/
def TransformRGBImage (kern : GemKernels) (cm : CacheModel) (im : Image)
    (colorspace : ColorspaceType) : Image × Bool :=
  match im.colorspace with
  | .CMY => directInvCase cm cmyPixelOp im
  | .CMYK => directInvCase cm cmykInvPixelOp im
  | .HSB => directInvCase cm (hsbInvPixelOp kern) im
  | .HSL => directInvCase cm (hslInvPixelOp kern) im
  | .HWB => directInvCase cm (hwbInvPixelOp kern) im
  | .Lab => directInvCase cm (labInvPixelOp kern) im
  | .Log => logInvCase kern cm im
  | _ => invTablePath kern cm im colorspace

/-- TransformImageColorspace from colorspace.c: retag for Undefined, no-op on
an equal tag, delegate to TransformRGBImage for sRGB/Transparent targets,
otherwise pivot through sRGB and then RGBTransformImage to the target. -/
def TransformImageColorspace (kern : GemKernels) (cm : CacheModel) (im : Image)
    (colorspace : ColorspaceType) : Image × Bool :=
  if colorspace = .Undefined then SetImageColorspace cm im colorspace
  else if im.colorspace = colorspace then (im, true)
  else if colorspace = .sRGB ∨ colorspace = .Transparent then
    TransformRGBImage kern cm im colorspace
  else
    let r1 := if im.colorspace = .RGB then TransformRGBImage kern cm im .sRGB
              else (im, true)
    if r1.2 = false then (r1.1, false)
    else
      let r2 := if IssRGBColorspace r1.1.colorspace = false then
          TransformRGBImage kern cm r1.1 r1.1.colorspace
        else (r1.1, true)
      if r2.2 = false then (r2.1, false)
      else RGBTransformImage kern cm r2.1 colorspace

/-- An arbitrary instantiation of the out-of-excerpt scalar collaborators,
used to evaluate the pipeline at concrete inputs; the claims hold for every
instantiation. -/
def trivialKernels : GemKernels where
  powQ := fun _ _ => 0
  log10Q := fun _ => 0
  rgbToHSB := fun _ _ _ => (0, 0, 0)
  hsbToRGB := fun _ _ _ => (0, 0, 0)
  rgbToHSL := fun _ _ _ => (0, 0, 0)
  hslToRGB := fun _ _ _ => (0, 0, 0)
  rgbToHWB := fun _ _ _ => (0, 0, 0)
  hwbToRGB := fun _ _ _ => (0, 0, 0)
  rgbToCMYK := fun p => p

/-- The cache model in which every collaborator succeeds. -/
def allOk : CacheModel where
  fetchOk := fun _ => true
  rowSyncOk := fun _ => true
  cacheSyncOk := true
  syncImageOk := true
  setStorageOk := true
  allocOk := true

/-- The cache model in which the pixel fetch of row 0 fails and everything
else succeeds. -/
def cmRow0Fails : CacheModel :=
  { allOk with fetchOk := fun y => !(y == 0) }

/-- The cache model in which lookup-table allocation fails and everything
else succeeds. -/
def cmAllocFails : CacheModel :=
  { allOk with allocOk := false }

/-- A one-pixel DirectClass sRGB image holding pure red. -/
def imgRed : Image where
  storage_class := .DirectClass
  colorspace := .sRGB
  type := .UndefinedType
  matte := false
  pixels := [[⟨65535, 0, 0, 0, 0⟩]]
  colormap := []
  indexes := []

/-- A one-pixel DirectClass sRGB image with small channel values. -/
def imgSmall : Image where
  storage_class := .DirectClass
  colorspace := .sRGB
  type := .UndefinedType
  matte := false
  pixels := [[⟨1, 2, 3, 0, 0⟩]]
  colormap := []
  indexes := []

/-- A two-row, one-column DirectClass image tagged YCbCr. -/
def imgTwoRows : Image where
  storage_class := .DirectClass
  colorspace := .YCbCr
  type := .UndefinedType
  matte := false
  pixels := [[⟨1000, 2000, 3000, 0, 0⟩], [⟨4000, 5000, 6000, 0, 0⟩]]
  colormap := []
  indexes := []

/-- A one-pixel PseudoClass sRGB image with a two-entry colormap. -/
def imgPalette : Image where
  storage_class := .PseudoClass
  colorspace := .sRGB
  type := .UndefinedType
  matte := false
  pixels := [[⟨100, 200, 300, 0, 0⟩]]
  colormap := [⟨100, 200, 300, 0, 0⟩, ⟨400, 500, 600, 0, 1⟩]
  indexes := [[0]]

/-- The target colorspaces RGBTransformImage sends to its table path: every
case its dispatch does not handle with direct per-pixel math. -/
def fwdUsesTables : ColorspaceType → Bool
  | .CMY | .CMYK | .HSB | .HSL | .HWB | .Lab | .Log => false
  | _ => true

/-- The image tags TransformRGBImage sends to its table path: every case its
dispatch does not handle with direct per-pixel math. -/
def invUsesTables : ColorspaceType → Bool
  | .CMY | .CMYK | .HSB | .HSL | .HWB | .Lab | .Log => false
  | _ => true

/-- A one-pixel DirectClass image tagged YIQ. -/
def imgYIQ : Image where
  storage_class := .DirectClass
  colorspace := .YIQ
  type := .UndefinedType
  matte := false
  pixels := [[⟨1000, 2000, 3000, 0, 0⟩]]
  colormap := []
  indexes := []

end Magick

namespace MagickReal

/-- Modelled from the spec: MagickEpsilon (magick-type.h) over ℝ. -/
noncomputable def MagickEpsilon : ℝ := 1e-10

/-- The D50 illuminant X component (colorspace.c). -/
noncomputable def D50X : ℝ := 0.9642

/-- The D50 illuminant Y component (colorspace.c). -/
noncomputable def D50Y : ℝ := 1.0

/-- The D50 illuminant Z component (colorspace.c). -/
noncomputable def D50Z : ℝ := 0.8249

/-- LabF1 from colorspace.c over ℝ: the linear toe at or below (24/116)³, the
real cube root above it. -/
noncomputable def LabF1 (alpha : ℝ) : ℝ :=
  if alpha ≤ (24/116) * (24/116) * (24/116) then (841/108) * alpha + 16/116
  else alpha ^ ((1:ℝ)/3)

/-- ConvertXYZToLab from colorspace.c over ℝ: near-zero inputs clamp to
(0, 0.5, 0.5); otherwise L, a, b with the negative chroma components wrapped
up by one. -/
noncomputable def ConvertXYZToLab (X Y Z : ℝ) : ℝ × ℝ × ℝ :=
  if |X| < MagickEpsilon ∧ |Y| < MagickEpsilon ∧ |Z| < MagickEpsilon then
    (0, 0.5, 0.5)
  else
    ((116 * LabF1 (Y / D50Y) - 16) / 100,
     if 500 * (LabF1 (X / D50X) - LabF1 (Y / D50Y)) / 255 < 0 then
       500 * (LabF1 (X / D50X) - LabF1 (Y / D50Y)) / 255 + 1
     else 500 * (LabF1 (X / D50X) - LabF1 (Y / D50Y)) / 255,
     if 200 * (LabF1 (Y / D50Y) - LabF1 (Z / D50Z)) / 255 < 0 then
       200 * (LabF1 (Y / D50Y) - LabF1 (Z / D50Z)) / 255 + 1
     else 200 * (LabF1 (Y / D50Y) - LabF1 (Z / D50Z)) / 255)

/-- LabF2 from colorspace.c over ℝ: the cube above 24/116, the linear segment
clamped at zero below. -/
noncomputable def LabF2 (alpha : ℝ) : ℝ :=
  if 24/116 < alpha then alpha * alpha * alpha
  else if 0 < (108/841) * (alpha - 16/116) then (108/841) * (alpha - 16/116)
  else 0

/-- ConvertLabToXYZ from colorspace.c over ℝ: zero output for L at or below
zero, otherwise unwrap the chroma channels and invert through LabF2. -/
noncomputable def ConvertLabToXYZ (L a b : ℝ) : ℝ × ℝ × ℝ :=
  if L ≤ 0 then (0, 0, 0)
  else
    (D50X * LabF2 ((100 * L + 16) / 116 + 255 * 0.002 * (if 0.5 < a then a - 1 else a)),
     D50Y * LabF2 ((100 * L + 16) / 116),
     D50Z * LabF2 ((100 * L + 16) / 116 - 255 * 0.005 * (if 0.5 < b then b - 1 else b)))

end MagickReal

open Magick MagickReal

/-- C1: the spec claims the sRGB-to-C-to-sRGB round trip reproduces every
pixel within MaxMap quantization error for every table-driven colorspace C,
YPbPr included. Evaluating the embedded pipeline at pure red through YPbPr:
the forward transform stores (19595, 21710, 65535) and the inverse returns
green 46801 instead of 0 — the inverse YPbPr green table entry for Pr has
coefficient +0.357068 where the (identical-forward-matrix) YCbCr inverse uses
-0.714136·0.5, so the claim is right about intent and the code wrong. -/
theorem c1_ypbpr_roundtrip_failure :
    imgRed.pixels = [[⟨65535, 0, 0, 0, 0⟩]] ∧
    (TransformRGBImage trivialKernels allOk
      (RGBTransformImage trivialKernels allOk imgRed .YPbPr).1 .YPbPr).1.pixels =
      [[⟨65535, 46801, 1, 0, 0⟩]] := by
  refine ⟨rfl, ?_⟩
  norm_num +decide [TransformRGBImage, RGBTransformImage, imgRed, allOk, invTablePath,
    fwdTablePath, SetImageColorspace, runRows, rowLoop, fwdPixelOp, invPixelOp,
    invCorrection, fwdTables, invTables, fwdPrimaryInfo, ScaleQuantumToMap,
    ScaleMapToQuantum, IsGrayColorspace, ctrunc, MaxMap, QuantumRange]
  all_goals try simp
  all_goals try norm_num
  all_goals try simp

/-- C2 counterexample: converting the PseudoClass image imgPalette to HSB
moves it to DirectClass storage, refuting the claim that colorspace
conversion never changes the storage class. -/
theorem c2_counterexample :
    imgPalette.storage_class = .PseudoClass ∧
    (RGBTransformImage trivialKernels allOk imgPalette .HSB).1.storage_class =
      .DirectClass := by
  refine ⟨rfl, ?_⟩
  simp +decide [RGBTransformImage, directFwdCase, pseudoToDirect, SyncImage,
    SetImageStorageClass, runRows, SetImageColorspace, imgPalette, allOk,
    IsGrayColorspace]

/-- C3 counterexample: with table allocation failing, RGBTransformImage on an
sRGB image with target YCbCr returns failure but leaves the tag at YCbCr, not
at the prior sRGB — the entry retag has already happened. -/
theorem c3_counterexample :
    imgSmall.colorspace = .sRGB ∧
    RGBTransformImage trivialKernels cmAllocFails imgSmall .YCbCr =
      ({ imgSmall with colorspace := .YCbCr }, false) := by
  refine ⟨rfl, ?_⟩
  simp +decide [RGBTransformImage, fwdTablePath, SetImageColorspace, imgSmall,
    cmAllocFails, allOk, IsGrayColorspace]

/-- C4 counterexample: with the fetch of row 0 failing, the table-driven
TransformRGBImage of a two-row YCbCr image returns MagickTrue (the claim says
MagickFalse) and leaves row 1 unprocessed (a fully successful run rewrites
both rows). -/
theorem c4_counterexample :
    (TransformRGBImage trivialKernels cmRow0Fails imgTwoRows .YCbCr).2 = true ∧
    (TransformRGBImage trivialKernels cmRow0Fails imgTwoRows .YCbCr).1.pixels =
      imgTwoRows.pixels ∧
    (TransformRGBImage trivialKernels allOk imgTwoRows .YCbCr).1.pixels =
      [[⟨0, 32846, 0, 0, 0⟩], [⟨0, 32671, 0, 0, 0⟩]] := by
  refine ⟨?_, ?_, ?_⟩
  · simp +decide [TransformRGBImage, invTablePath, SetImageColorspace, runRows, rowLoop,
      imgTwoRows, cmRow0Fails, allOk]
  · simp +decide [TransformRGBImage, invTablePath, SetImageColorspace, runRows, rowLoop,
      imgTwoRows, cmRow0Fails, allOk]
  · norm_num +decide [TransformRGBImage, invTablePath, SetImageColorspace, runRows, rowLoop,
      invPixelOp, invCorrection, invTables, ScaleQuantumToMap, ScaleMapToQuantum,
      imgTwoRows, allOk, ctrunc, MaxMap, QuantumRange]

/-- C5: the documented YCbCr forward matrix has Cb = -0.168736·R - ..., but
the table builder writes x_map[i].y = -0.168730·i: at index 65535 the entry
contributing red to Cb is -0.168730·65535, which differs from the documented
-0.168736·65535 — the code contradicts the comment immediately above it. -/
theorem c5_ycbcr_cb_coefficient :
    (fwdTables trivialKernels .YCbCr 65535).x_map.y = -0.168730 * 65535 ∧
    (-0.168730 : ℚ) * 65535 ≠ -0.168736 * 65535 := by
  constructor
  · norm_num [fwdTables]
  · norm_num

/-- C8: transforming to the colorspace the image is already tagged with
(target not Undefined) returns success and changes nothing. -/
theorem c8_same_tag_noop (kern : GemKernels) (cm : CacheModel) (im : Image)
    (colorspace : ColorspaceType) (hU : colorspace ≠ .Undefined)
    (heq : im.colorspace = colorspace) :
    TransformImageColorspace kern cm im colorspace = (im, true) := by
  unfold TransformImageColorspace
  rw [if_neg hU, if_pos heq]

/-- Witness for c8_same_tag_noop at a concrete image and tag. -/
theorem c8_same_tag_noop_witness :
    TransformImageColorspace trivialKernels allOk imgYIQ .YIQ = (imgYIQ, true) :=
  c8_same_tag_noop trivialKernels allOk imgYIQ .YIQ (by decide) rfl

/-- C10: transforming to Undefined is a pure retag, even when the tag already
is Undefined: the tag is set and the returned status is exactly the
pixel-cache synchronization status of SetImageColorspace; pixels, colormap,
indexes and storage class are untouched by the record update. -/
theorem c10_undefined_retag_only (kern : GemKernels) (cm : CacheModel) (im : Image) :
    TransformImageColorspace kern cm im .Undefined =
      ({ im with colorspace := .Undefined }, cm.cacheSyncOk) := by
  unfold TransformImageColorspace
  rw [if_pos rfl]
  rfl

/-- Once the shared status flag is false, every remaining row is skipped
unchanged and the flag stays false. -/
theorem rowLoop_false (cm : CacheModel) (f : List Pixel → List Pixel) (y : ℕ)
    (rows : List (List Pixel)) : rowLoop cm f y false rows = (rows, false) := by
  induction rows generalizing y with
  | nil => rfl
  | cons r rs ih => simp [rowLoop, ih]

set_option maxRecDepth 8000 in
/-- C9: RoundToYCC clamps every input into [0, 1388]; in particular every
access the YCC correction pass of TransformRGBImage makes into the
1389-entry YCCMap is in bounds. -/
theorem c9_round_to_ycc_bounds (value : ℚ) :
    0 ≤ RoundToYCC value ∧ RoundToYCC value ≤ 1388 ∧
      (RoundToYCC value).toNat < YCCMap.length := by
  have hlen : YCCMap.length = 1389 := by rfl
  rw [hlen]
  unfold RoundToYCC
  split_ifs with h1 h2
  · exact ⟨le_refl 0, by norm_num, by norm_num⟩
  · exact ⟨by norm_num, le_refl 1388, by norm_num⟩
  · have h0 : (0 : ℚ) < value := not_le.mp h1
    have hv : value < 1388 := not_le.mp h2
    unfold ctrunc
    rw [if_neg (by linarith : ¬ value + 0.5 < 0)]
    have hfl0 : 0 ≤ ⌊value + 0.5⌋ := Int.floor_nonneg.mpr (by linarith)
    have hfl1 : ⌊value + 0.5⌋ < 1389 := by
      apply Int.floor_lt.mpr
      push_cast
      linarith
    exact ⟨hfl0, by omega, by omega⟩

/-- C4 amended: in the table-driven DirectClass path of TransformRGBImage a
row failure does not make the call return MagickFalse — the status flag is
never consulted at the end, so the returned value equals the cache-sync
status of the final retag to sRGB; and once a row fetch fails, every
remaining row is skipped (left unchanged) rather than processed. -/
theorem c4_amended_row_failure (kern : GemKernels) (cm : CacheModel) (im : Image)
    (colorspace : ColorspaceType)
    (hT : invUsesTables im.colorspace = true)
    (hD : im.storage_class = .DirectClass)
    (hA : cm.allocOk = true) :
    ((TransformRGBImage kern cm im colorspace).2 = cm.cacheSyncOk) ∧
    (∀ (f : List Pixel → List Pixel) (y : ℕ) (row : List Pixel)
       (rest : List (List Pixel)), cm.fetchOk y = false →
         rowLoop cm f y true (row :: rest) = (row :: rest, false)) := by
  constructor
  · cases h : im.colorspace <;>
      simp_all [TransformRGBImage, invTablePath, SetImageColorspace, invUsesTables] <;>
      cases hc : cm.cacheSyncOk <;> simp_all
  · intro f y row rest hf
    simp [rowLoop, hf, rowLoop_false]

/-- Witness for c4_amended_row_failure at the two-row YCbCr image with the
fetch of row 0 failing. -/
theorem c4_amended_row_failure_witness :
    ((TransformRGBImage trivialKernels cmRow0Fails imgTwoRows .YCbCr).2 =
      cmRow0Fails.cacheSyncOk) ∧
    rowLoop cmRow0Fails (fun r => r) 0 true
        [[⟨1000, 2000, 3000, 0, 0⟩], [⟨4000, 5000, 6000, 0, 0⟩]] =
      ([[⟨1000, 2000, 3000, 0, 0⟩], [⟨4000, 5000, 6000, 0, 0⟩]], false) := by
  have h := c4_amended_row_failure trivialKernels cmRow0Fails imgTwoRows .YCbCr
    (by decide) rfl rfl
  exact ⟨h.1, h.2 (fun r => r) 0 [⟨1000, 2000, 3000, 0, 0⟩]
    [[⟨4000, 5000, 6000, 0, 0⟩]] rfl⟩

/-- A successful direct-math inverse case always leaves the tag at sRGB. -/
theorem directInvCase_colorspace (cm : CacheModel) (op : Pixel → Pixel) (im : Image) :
    (directInvCase cm op im).2 = true → (directInvCase cm op im).1.colorspace = .sRGB := by
  simp only [directInvCase, SetImageColorspace]
  split_ifs <;> simp_all

/-- A successful Log inverse case always leaves the tag at sRGB. -/
theorem logInvCase_colorspace (kern : GemKernels) (cm : CacheModel) (im : Image) :
    (logInvCase kern cm im).2 = true → (logInvCase kern cm im).1.colorspace = .sRGB := by
  simp only [logInvCase, SetImageColorspace, SetImageStorageClass]
  split_ifs <;> simp_all

/-- A successful inverse table path always leaves the tag at sRGB. -/
theorem invTablePath_colorspace (kern : GemKernels) (cm : CacheModel) (im : Image)
    (colorspace : ColorspaceType) :
    (invTablePath kern cm im colorspace).2 = true →
    (invTablePath kern cm im colorspace).1.colorspace = .sRGB := by
  cases hsc : im.storage_class <;>
    simp only [invTablePath, SetImageColorspace, hsc] <;>
    split_ifs <;> simp_all

/-- A successful TransformRGBImage always leaves the tag at sRGB. -/
theorem TransformRGBImage_colorspace (kern : GemKernels) (cm : CacheModel) (im : Image)
    (colorspace : ColorspaceType) :
    (TransformRGBImage kern cm im colorspace).2 = true →
    (TransformRGBImage kern cm im colorspace).1.colorspace = .sRGB := by
  cases h : im.colorspace <;> simp only [TransformRGBImage, h] <;>
    first
    | exact directInvCase_colorspace _ _ _
    | exact logInvCase_colorspace _ _ _
    | exact invTablePath_colorspace _ _ _ _

/-- C6: TransformImageColorspace is a no-op when the image already carries
the target tag; delegates to TransformRGBImage when the target is sRGB or
Transparent; and for any other target on a non-sRGB-tagged image it is the
two-step composition: TransformRGBImage to sRGB first (called with parameter
sRGB when the tag is linear RGB, with the tag itself otherwise), then
RGBTransformImage from sRGB to the target, aborting if the first step
fails. -/
theorem c6_transform_composition (kern : GemKernels) (cm : CacheModel) (im : Image)
    (colorspace : ColorspaceType) (hU : colorspace ≠ .Undefined) :
    (im.colorspace = colorspace →
      TransformImageColorspace kern cm im colorspace = (im, true)) ∧
    (im.colorspace ≠ colorspace → (colorspace = .sRGB ∨ colorspace = .Transparent) →
      TransformImageColorspace kern cm im colorspace =
        TransformRGBImage kern cm im colorspace) ∧
    (im.colorspace ≠ colorspace → colorspace ≠ .sRGB → colorspace ≠ .Transparent →
      IssRGBColorspace im.colorspace = false →
      TransformImageColorspace kern cm im colorspace =
        (if (TransformRGBImage kern cm im
              (if im.colorspace = .RGB then .sRGB else im.colorspace)).2 = false then
          ((TransformRGBImage kern cm im
              (if im.colorspace = .RGB then .sRGB else im.colorspace)).1, false)
         else
          RGBTransformImage kern cm
            (TransformRGBImage kern cm im
              (if im.colorspace = .RGB then .sRGB else im.colorspace)).1 colorspace)) := by
  refine ⟨?_, ?_, ?_⟩
  · intro heq
    unfold TransformImageColorspace
    rw [if_neg hU, if_pos heq]
  · intro hne hsr
    unfold TransformImageColorspace
    rw [if_neg hU, if_neg hne, if_pos hsr]
  · intro hne h1 h2 hno
    unfold TransformImageColorspace
    rw [if_neg hU, if_neg hne, if_neg (by simp [h1, h2])]
    by_cases hRGB : im.colorspace = .RGB
    · rw [if_pos hRGB, if_pos hRGB]
      by_cases hr1 : (TransformRGBImage kern cm im .sRGB).2 = false
      · simp [hr1]
      · have htag : (TransformRGBImage kern cm im .sRGB).1.colorspace = .sRGB :=
          TransformRGBImage_colorspace kern cm im .sRGB (by simpa using hr1)
        simp [hr1, htag, IssRGBColorspace]
    · rw [if_neg hRGB, if_neg hRGB]
      simp only [Bool.false_eq_true, if_false]
      by_cases hr2 : (TransformRGBImage kern cm im im.colorspace).2 = false
      · simp [hno, hr2]
      · simp [hno, hr2]

/-- Witness for c6_transform_composition on a YIQ-tagged image converted to
YCbCr. -/
theorem c6_transform_composition_witness :
    TransformImageColorspace trivialKernels allOk imgYIQ .YCbCr =
      (if (TransformRGBImage trivialKernels allOk imgYIQ .YIQ).2 = false then
        ((TransformRGBImage trivialKernels allOk imgYIQ .YIQ).1, false)
       else
        RGBTransformImage trivialKernels allOk
          (TransformRGBImage trivialKernels allOk imgYIQ .YIQ).1 .YCbCr) := by
  have h := (c6_transform_composition trivialKernels allOk imgYIQ .YCbCr
    (by decide)).2.2 (by decide) (by decide) (by decide) (by decide)
  simpa [imgYIQ] using h

/-- C2 amended: table-driven conversions preserve PseudoClass storage by
transforming the colormap and resyncing, but the direct-math colorspaces
force a PseudoClass image to DirectClass storage first: targets CMY, CMYK,
HSB, HSL, HWB and Lab in RGBTransformImage, and tags CMY, CMYK, HSB, HSL,
HWB, Lab and Log in TransformRGBImage, all leave the image in DirectClass
storage (the forward Log case touches pixels in place without changing the
storage class). -/
theorem c2_amended_storage (kern : GemKernels) (cm : CacheModel) (im : Image)
    (hP : im.storage_class = .PseudoClass)
    (hSync : cm.syncImageOk = true) (hStore : cm.setStorageOk = true)
    (hCache : cm.cacheSyncOk = true) (hAlloc : cm.allocOk = true) :
    (∀ cs, (cs = .CMY ∨ cs = .CMYK ∨ cs = .HSB ∨ cs = .HSL ∨ cs = .HWB ∨ cs = .Lab) →
      (RGBTransformImage kern cm im cs).1.storage_class = .DirectClass) ∧
    (∀ cs, im.colorspace = cs →
      (cs = .CMY ∨ cs = .CMYK ∨ cs = .HSB ∨ cs = .HSL ∨ cs = .HWB ∨ cs = .Lab ∨
        cs = .Log) →
      (TransformRGBImage kern cm im cs).1.storage_class = .DirectClass) ∧
    (∀ cs, fwdUsesTables cs = true →
      (RGBTransformImage kern cm im cs).1.storage_class = .PseudoClass) := by
  refine ⟨?_, ?_, ?_⟩
  · intro cs h
    rcases h with h | h | h | h | h | h <;> subst h <;>
      simp +decide [RGBTransformImage, SetImageColorspace, IsGrayColorspace,
        directFwdCase, pseudoToDirect, hP, SyncImage, hSync, SetImageStorageClass,
        hStore, hCache, runRows, setSeparationType]
  · intro cs him h
    rcases h with h | h | h | h | h | h | h <;> subst h <;>
      simp [TransformRGBImage, him, directInvCase, logInvCase, pseudoToDirect, hP,
        SyncImage, hSync, SetImageStorageClass, hStore, SetImageColorspace, hCache,
        hAlloc, runRows]
  · intro cs hcs
    cases cs <;>
      first
      | exact absurd hcs (by decide)
      | simp +decide [RGBTransformImage, SetImageColorspace, IsGrayColorspace,
          fwdTablePath, hP, hCache, hAlloc, SyncImage, runRows]

/-- Witness for c2_amended_storage on the palette image: target HSB forces
DirectClass, target YCbCr preserves PseudoClass. -/
theorem c2_amended_storage_witness :
    (RGBTransformImage trivialKernels allOk imgPalette .HSB).1.storage_class =
      .DirectClass ∧
    (RGBTransformImage trivialKernels allOk imgPalette .YCbCr).1.storage_class =
      .PseudoClass := by
  have h := c2_amended_storage trivialKernels allOk imgPalette rfl rfl rfl rfl rfl
  exact ⟨h.1 .HSB (by simp), h.2.2 .YCbCr (by decide)⟩

/-- C3 amended: when table allocation fails, RGBTransformImage returns
MagickFalse, but the colorspace tag is not left at its prior value: the entry
retag has already set it to the target (or to sRGB for a grayscale target),
and the failing call returns with that tag in place. -/
theorem c3_amended_alloc_failure (kern : GemKernels) (cm : CacheModel) (im : Image)
    (colorspace : ColorspaceType)
    (hA : cm.allocOk = false) (hC : cm.cacheSyncOk = true)
    (hT : fwdUsesTables colorspace = true)
    (h1 : colorspace ≠ .sRGB) (h2 : colorspace ≠ .Transparent)
    (h3 : colorspace ≠ .Undefined) :
    RGBTransformImage kern cm im colorspace =
      ({ im with colorspace :=
          if IsGrayColorspace colorspace = true then .sRGB else colorspace }, false) := by
  cases colorspace <;> simp_all +decide [RGBTransformImage, fwdTablePath,
    SetImageColorspace, IsGrayColorspace, fwdUsesTables]

/-- Witness for c3_amended_alloc_failure with a grayscale target: the tag is
left at sRGB, not at the prior value, and the call fails. -/
theorem c3_amended_alloc_failure_witness :
    RGBTransformImage trivialKernels cmAllocFails imgYIQ .GRAY =
      ({ imgYIQ with colorspace := .sRGB }, false) := by
  have h := c3_amended_alloc_failure trivialKernels cmAllocFails imgYIQ .GRAY
    rfl rfl (by decide) (by decide) (by decide) (by decide)
  simpa [IsGrayColorspace] using h

/-- The real cube root inverts a cube on the nonnegative reals. -/
theorem rpow_third_cube (x : ℝ) (hx : 0 ≤ x) : (x * x * x) ^ ((1:ℝ)/3) = x := by
  have h3 : x * x * x = x ^ (3:ℕ) := by ring
  rw [h3, ← Real.rpow_natCast x 3, ← Real.rpow_mul hx]
  norm_num

/-- LabF2 inverts LabF1 on the nonnegative reals: the linear segments meet
exactly at the 24/116 knee, and the cube undoes the cube root. -/
theorem LabF2_LabF1 (alpha : ℝ) (h : 0 ≤ alpha) : LabF2 (LabF1 alpha) = alpha := by
  unfold LabF1 LabF2
  by_cases hc : alpha ≤ (24/116) * (24/116) * (24/116)
  · rw [if_pos hc]
    have hle : (841/108) * alpha + 16/116 ≤ 24/116 := by nlinarith
    rw [if_neg (not_lt.mpr hle)]
    have heq : (108/841) * ((841/108) * alpha + 16/116 - 16/116) = alpha := by ring
    rw [heq]
    rcases lt_or_eq_of_le h with h0 | h0
    · rw [if_pos h0]
    · rw [if_neg (by rw [← h0]; exact lt_irrefl 0)]
      exact h0
  · rw [if_neg hc]
    have halpha : (24/116) * (24/116) * (24/116) < alpha := not_le.mp hc
    have hknee : (24:ℝ)/116 < alpha ^ ((1:ℝ)/3) := by
      calc (24:ℝ)/116 = (((24:ℝ)/116) * (24/116) * (24/116)) ^ ((1:ℝ)/3) :=
            (rpow_third_cube _ (by norm_num)).symm
        _ < alpha ^ ((1:ℝ)/3) :=
            Real.rpow_lt_rpow (by norm_num) halpha (by norm_num)
    rw [if_pos hknee]
    have hcube : alpha ^ ((1:ℝ)/3) * alpha ^ ((1:ℝ)/3) * alpha ^ ((1:ℝ)/3) =
        (alpha ^ ((1:ℝ)/3)) ^ (3:ℕ) := by ring
    rw [hcube, ← Real.rpow_natCast (alpha ^ ((1:ℝ)/3)) 3, ← Real.rpow_mul h]
    norm_num

/-- Rational bounds on LabF1 above the knee, obtained by cubing. -/
theorem LabF1_bounds (alpha lo hi : ℝ) (hlo0 : 0 ≤ lo) (hhi0 : 0 ≤ hi)
    (hknee : (24/116) * (24/116) * (24/116) < alpha)
    (hlo : lo * lo * lo ≤ alpha) (hhi : alpha ≤ hi * hi * hi) :
    lo ≤ LabF1 alpha ∧ LabF1 alpha ≤ hi := by
  have halpha0 : (0:ℝ) ≤ alpha := le_of_lt (lt_trans (by norm_num) hknee)
  unfold LabF1
  rw [if_neg (not_le.mpr hknee)]
  constructor
  · calc lo = (lo * lo * lo) ^ ((1:ℝ)/3) := (rpow_third_cube lo hlo0).symm
      _ ≤ alpha ^ ((1:ℝ)/3) :=
          Real.rpow_le_rpow (by positivity) hlo (by norm_num)
  · calc alpha ^ ((1:ℝ)/3) ≤ (hi * hi * hi) ^ ((1:ℝ)/3) :=
          Real.rpow_le_rpow halpha0 hhi (by norm_num)
      _ = hi := rpow_third_cube hi hhi0

/-- Unwrapping the chroma wrap: storing a value in (-1/2, 1/2] with the
add-one wrap for negatives and reading it back with the subtract-one unwrap
for values above one half is the identity. -/
theorem lab_unwrap (t : ℝ) (h1 : -(1/2) < t) (h2 : t ≤ 1/2) :
    (if 0.5 < (if t < 0 then t + 1 else t) then (if t < 0 then t + 1 else t) - 1
     else (if t < 0 then t + 1 else t)) = t := by
  by_cases ht : t < 0
  · rw [if_pos ht, if_pos (by norm_num; linarith)]
    ring
  · rw [if_neg ht, if_neg (not_lt.mpr (le_trans h2 (by norm_num)))]

/-- C7: for X, Y, Z in the D50 working range (nonnegative, Y at least
MagickEpsilon, and chroma differences inside the invertible wrap window)
ConvertLabToXYZ inverts ConvertXYZToLab exactly in real arithmetic — so
within floating tolerance in the implementation — while inputs with all three
magnitudes below MagickEpsilon clamp to L = 0, a = 0.5, b = 0.5 by design. -/
theorem c7_lab_roundtrip (X Y Z : ℝ)
    (hX : 0 ≤ X) (hY : MagickEpsilon ≤ Y) (hZ : 0 ≤ Z)
    (ha1 : -(1/2) < 500 * (LabF1 (X / D50X) - LabF1 (Y / D50Y)) / 255)
    (ha2 : 500 * (LabF1 (X / D50X) - LabF1 (Y / D50Y)) / 255 ≤ 1/2)
    (hb1 : -(1/2) < 200 * (LabF1 (Y / D50Y) - LabF1 (Z / D50Z)) / 255)
    (hb2 : 200 * (LabF1 (Y / D50Y) - LabF1 (Z / D50Z)) / 255 ≤ 1/2) :
    (ConvertLabToXYZ (ConvertXYZToLab X Y Z).1 (ConvertXYZToLab X Y Z).2.1
      (ConvertXYZToLab X Y Z).2.2 = (X, Y, Z)) ∧
    (∀ X0 Y0 Z0 : ℝ, |X0| < MagickEpsilon → |Y0| < MagickEpsilon →
      |Z0| < MagickEpsilon → ConvertXYZToLab X0 Y0 Z0 = (0, 0.5, 0.5)) := by
  constructor
  · have hY0 : (0:ℝ) < Y := lt_of_lt_of_le (by norm_num [MagickEpsilon]) hY
    have hguard : ¬(|X| < MagickEpsilon ∧ |Y| < MagickEpsilon ∧ |Z| < MagickEpsilon) := by
      rintro ⟨-, hy, -⟩
      linarith [le_abs_self Y]
    have hYD : Y / D50Y = Y := by norm_num [D50Y]
    have hfy : 16/116 < LabF1 (Y / D50Y) := by
      rw [hYD]
      unfold LabF1
      by_cases hc : Y ≤ (24/116) * (24/116) * (24/116)
      · rw [if_pos hc]; nlinarith
      · rw [if_neg hc]
        have h1 : (24:ℝ)/116 ≤ Y ^ ((1:ℝ)/3) := by
          calc (24:ℝ)/116 = (((24:ℝ)/116) * (24/116) * (24/116)) ^ ((1:ℝ)/3) :=
                (rpow_third_cube _ (by norm_num)).symm
            _ ≤ Y ^ ((1:ℝ)/3) :=
                Real.rpow_le_rpow (by norm_num) (le_of_lt (not_le.mp hc)) (by norm_num)
        linarith
    have hLpos : 0 < (116 * LabF1 (Y / D50Y) - 16) / 100 := by linarith
    simp only [ConvertXYZToLab, if_neg hguard]
    simp only [ConvertLabToXYZ]
    rw [if_neg (not_le.mpr hLpos)]
    rw [lab_unwrap _ ha1 ha2, lab_unwrap _ hb1 hb2]
    have hxarg : (100 * ((116 * LabF1 (Y / D50Y) - 16) / 100) + 16) / 116 +
        255 * 0.002 * (500 * (LabF1 (X / D50X) - LabF1 (Y / D50Y)) / 255) =
        LabF1 (X / D50X) := by ring
    have hzarg : (100 * ((116 * LabF1 (Y / D50Y) - 16) / 100) + 16) / 116 -
        255 * 0.005 * (200 * (LabF1 (Y / D50Y) - LabF1 (Z / D50Z)) / 255) =
        LabF1 (Z / D50Z) := by ring
    have hyarg : (100 * ((116 * LabF1 (Y / D50Y) - 16) / 100) + 16) / 116 =
        LabF1 (Y / D50Y) := by ring
    rw [hxarg, hzarg, hyarg]
    have hXd : 0 ≤ X / D50X := div_nonneg hX (by norm_num [D50X])
    have hYd : 0 ≤ Y / D50Y := div_nonneg (le_of_lt hY0) (by norm_num [D50Y])
    have hZd : 0 ≤ Z / D50Z := div_nonneg hZ (by norm_num [D50Z])
    rw [LabF2_LabF1 _ hXd, LabF2_LabF1 _ hYd, LabF2_LabF1 _ hZd]
    simp only [Prod.mk.injEq]
    refine ⟨?_, ?_, ?_⟩
    · rw [mul_comm]
      exact div_mul_cancel₀ X (by norm_num [D50X])
    · rw [hYD]
      norm_num [D50Y]
    · rw [mul_comm]
      exact div_mul_cancel₀ Z (by norm_num [D50Z])
  · intro X0 Y0 Z0 hx hy hz
    simp only [ConvertXYZToLab]
    rw [if_pos ⟨hx, hy, hz⟩]

/-- Witness for c7_lab_roundtrip at the mid-gray point X = Y = Z = 1/2, with
the chroma-window hypotheses discharged through cube bounds on LabF1. -/
theorem c7_lab_roundtrip_witness :
    ConvertLabToXYZ (ConvertXYZToLab (1/2) (1/2) (1/2)).1
      (ConvertXYZToLab (1/2) (1/2) (1/2)).2.1
      (ConvertXYZToLab (1/2) (1/2) (1/2)).2.2 = ((1:ℝ)/2, 1/2, 1/2) := by
  have hfx := LabF1_bounds ((1/2 : ℝ) / D50X) 0.80 0.81 (by norm_num) (by norm_num)
    (by norm_num [D50X]) (by norm_num [D50X]) (by norm_num [D50X])
  have hfy := LabF1_bounds ((1/2 : ℝ) / D50Y) 0.79 0.80 (by norm_num) (by norm_num)
    (by norm_num [D50Y]) (by norm_num [D50Y]) (by norm_num [D50Y])
  have hfz := LabF1_bounds ((1/2 : ℝ) / D50Z) 0.84 0.85 (by norm_num) (by norm_num)
    (by norm_num [D50Z]) (by norm_num [D50Z]) (by norm_num [D50Z])
  exact (c7_lab_roundtrip (1/2) (1/2) (1/2) (by norm_num)
    (by norm_num [MagickEpsilon]) (by norm_num)
    (by linarith [hfx.1, hfy.2]) (by linarith [hfx.2, hfy.1])
    (by linarith [hfy.1, hfz.2]) (by linarith [hfy.2, hfz.1])).1
